import Mathlib

/-!
# TUXEDO InfinityBook Gen10 fan control: embedding of `uniwill_ibg10_fanctl.c`

The driver talks to the embedded controller (EC) through one platform method,
`wmi_evaluate_method`.  That method is the environment of the program: it is
modelled as a deterministic state machine over an arbitrary state type `σ`, so
that statements can range over every transport behaviour (failing, flaky,
register-backed, ...).

Two ghost traces are kept next to the environment state:
* `wmi_calls` : the 40-byte request buffers handed to `wmi_evaluate_method`,
  one entry per call, oldest first;
* `ec_ops`    : the invocations of `uw_ec_read` / `uw_ec_write`, oldest first.

Machine integers are natural numbers with explicit reductions (`% 256` for
`u8`, `% 65536` for `u16`); `int` / `long` values are `Int`.  `msleep`,
the mutex and the log messages have no effect on the modelled state.
-/

namespace Ibg10

/-! ## Constants -/

def EIO : Int := 5
def EINVAL : Int := 22
def EOPNOTSUPP : Int := 95

def UW_EC_REG_USE_CUSTOM_FAN_TABLE_0 : Nat := 0x07c5
def UW_EC_REG_USE_CUSTOM_FAN_TABLE_1 : Nat := 0x07c6

def UW_EC_REG_CPU_FAN_TABLE_END_TEMP : Nat := 0x0f00
def UW_EC_REG_CPU_FAN_TABLE_START_TEMP : Nat := 0x0f10
def UW_EC_REG_CPU_FAN_TABLE_FAN_SPEED : Nat := 0x0f20

def UW_EC_REG_GPU_FAN_TABLE_END_TEMP : Nat := 0x0f30
def UW_EC_REG_GPU_FAN_TABLE_START_TEMP : Nat := 0x0f40
def UW_EC_REG_GPU_FAN_TABLE_FAN_SPEED : Nat := 0x0f50

def UW_EC_REG_FAN1_SPEED : Nat := 0x1804
def UW_EC_REG_FAN2_SPEED : Nat := 0x1809

def UW_EC_REG_FAN1_TEMP : Nat := 0x043e

def UW_EC_REG_FAN_MODE : Nat := 0x0751
def UW_EC_FAN_MODE_BIT : Nat := 0x40

def UW_EC_REG_MANUAL_MODE : Nat := 0x0741

def UW_EC_REG_CUSTOM_PROFILE : Nat := 0x0727
def UW_EC_CUSTOM_PROFILE_BIT : Nat := 0x40

def FAN_SPEED_MAX : Nat := 200
def FAN_ON_MIN_SPEED : Nat := 25

/-- Kernel helper `BIT(n)`, an `unsigned long` with only bit `n` set. -/
def BIT (n : Nat) : Nat := 1 <<< n

/-- Bitwise complement `~x` of an `int` operand, as a 32-bit pattern. -/
def not_int (x : Nat) : Nat := 0xFFFFFFFF ^^^ x

/-- Bitwise complement `~x` of an `unsigned long` operand (64 bits). -/
def not_ulong (x : Nat) : Nat := 0xFFFFFFFFFFFFFFFF ^^^ x

/-! ## Data model -/

/-- The part of `struct ibg10_data` that carries driver state. -/
structure ibg10_data where
  fans_initialized : Bool
deriving DecidableEq, Repr

/-- What `out.pointer` designates after a method call. -/
inductive acpi_object where
  | buffer (bytes : List Nat)
  | other
deriving DecidableEq, Repr

/-- Outcome of one `wmi_evaluate_method` call: `ACPI_FAILURE(status)` and the
returned object (`none` is a null pointer). -/
structure WmiReply where
  failure : Bool
  out : Option acpi_object
deriving DecidableEq, Repr

/-- A platform management interface: a state machine answering each request
buffer, given its current state. -/
structure WmiMethod (σ : Type) where
  evaluate : σ → List Nat → WmiReply × σ

/-- One invocation of the EC channel. -/
inductive EcOp where
  | read (addr : Nat)
  | write (addr : Nat) (value : Nat)
deriving DecidableEq, Repr

/-- The environment state together with the two ghost traces. -/
structure Platform (σ : Type) where
  ec : σ
  wmi_calls : List (List Nat)
  ec_ops : List EcOp

/-- Values held by the uninitialised locals `val0`, `val1`, `mode` of a
function before anything is stored in them. -/
structure Indeterminate where
  val0 : Nat
  val1 : Nat
  mode : Nat
deriving DecidableEq, Repr

/-- The sensor types of the hwmon framework (`enum hwmon_sensor_types`). -/
inductive hwmon_sensor_types where
  | hwmon_chip | hwmon_temp | hwmon_in | hwmon_curr | hwmon_power
  | hwmon_energy | hwmon_humidity | hwmon_fan | hwmon_pwm | hwmon_intrusion
deriving DecidableEq, Repr

/-- First member of `enum hwmon_pwm_attributes`. -/
def hwmon_pwm_input : Nat := 0
/-- Second member of `enum hwmon_pwm_attributes`. -/
def hwmon_pwm_enable : Nat := 1

/-! ## ECChannel -/

/-- The call `wmi_evaluate_method(GUID, 0, 4, &in, &out)`: the environment
answers and the request buffer is appended to the call trace. -/
def wmi_evaluate_method {σ : Type} (T : WmiMethod σ) (p : Platform σ)
    (in_buf : List Nat) : WmiReply × Platform σ :=
  let r := T.evaluate p.ec in_buf
  (r.1, { p with ec := r.2, wmi_calls := p.wmi_calls ++ [in_buf] })

/-- The request buffer of `uw_ec_read`: `u32 wmi_arg[10] = { 0 }` seen as 40
bytes, with the address at bytes 0-1 and the read selector at byte 5. -/
def uw_ec_read_arg (addr : Nat) : List Nat :=
  let arg_bytes := List.replicate 40 0
  let arg_bytes := arg_bytes.set 0 (addr &&& 0xff)
  let arg_bytes := arg_bytes.set 1 ((addr >>> 8) &&& 0xff)
  arg_bytes.set 5 1

/-- `uw_ec_read(data, addr, &value)`: `value` is the content of the destination
before the call; the result carries the return code, the content of the
destination after the call and the new platform. -/
def uw_ec_read {σ : Type} (T : WmiMethod σ) (p : Platform σ) (addr : Nat)
    (value : Nat) : Int × Nat × Platform σ :=
  let addr := addr % 65536
  let p := { p with ec_ops := p.ec_ops ++ [EcOp.read addr] }
  let r := wmi_evaluate_method T p (uw_ec_read_arg addr)
  if r.1.failure then (- EIO, value, r.2)
  else
    match r.1.out with
    | some (acpi_object.buffer (b :: _)) => (0, b % 256, r.2)
    | _ => (- EIO, value, r.2)

/-- The request buffer of `uw_ec_write`, rebuilt after `memset` on every
attempt: address at bytes 0-1, value at byte 2, write selector at byte 5. -/
def uw_ec_write_arg (addr value : Nat) : List Nat :=
  let arg_bytes := List.replicate 40 0
  let arg_bytes := arg_bytes.set 0 (addr &&& 0xff)
  let arg_bytes := arg_bytes.set 1 ((addr >>> 8) &&& 0xff)
  let arg_bytes := arg_bytes.set 2 value
  arg_bytes.set 5 0

/-- The body of `uw_ec_write` from the label `retry:` on.  The numeral argument
is the value of `retries` when the label is reached; `--retries > 0` decides
whether control jumps back. -/
def uw_ec_write_retry {σ : Type} (T : WmiMethod σ) (addr value : Nat) :
    Nat → Platform σ → Int × Platform σ
  | 0, p =>
    let r := wmi_evaluate_method T p (uw_ec_write_arg addr value)
    if r.1.failure then (- EIO, r.2) else (0, r.2)
  | retries + 1, p =>
    let r := wmi_evaluate_method T p (uw_ec_write_arg addr value)
    if r.1.failure then
      if retries > 0 then uw_ec_write_retry T addr value retries r.2
      else (- EIO, r.2)
    else (0, r.2)

/-- `uw_ec_write(data, addr, value)` with `addr : u16`, `value : u8` and
`retries = 3`. -/
def uw_ec_write {σ : Type} (T : WmiMethod σ) (p : Platform σ) (addr value : Nat) :
    Int × Platform σ :=
  let addr := addr % 65536
  let value := value % 256
  let p := { p with ec_ops := p.ec_ops ++ [EcOp.write addr value] }
  uw_ec_write_retry T addr value 3 p

/-! ## Fan table controller -/

/-- One iteration of the zone loop of `init_custom_fan_table`. -/
def init_zone {σ : Type} (T : WmiMethod σ) (temp_offset : Nat) (p : Platform σ)
    (i : Nat) : Platform σ :=
  let p := (uw_ec_write T p (UW_EC_REG_CPU_FAN_TABLE_END_TEMP + i) (temp_offset + i + 1)).2
  let p := (uw_ec_write T p (UW_EC_REG_CPU_FAN_TABLE_START_TEMP + i) (temp_offset + i)).2
  let p := (uw_ec_write T p (UW_EC_REG_CPU_FAN_TABLE_FAN_SPEED + i) FAN_SPEED_MAX).2
  let p := (uw_ec_write T p (UW_EC_REG_GPU_FAN_TABLE_END_TEMP + i) (temp_offset + i + 1)).2
  let p := (uw_ec_write T p (UW_EC_REG_GPU_FAN_TABLE_START_TEMP + i) (temp_offset + i)).2
  (uw_ec_write T p (UW_EC_REG_GPU_FAN_TABLE_FAN_SPEED + i) FAN_SPEED_MAX).2

/-- `init_custom_fan_table(data)`. -/
def init_custom_fan_table {σ : Type} (T : WmiMethod σ) (u : Indeterminate)
    (data : ibg10_data) (p : Platform σ) : Int × ibg10_data × Platform σ :=
  let temp_offset := 115
  if data.fans_initialized then (0, data, p)
  else
    -- toggle custom profile bit
    let r := uw_ec_read T p UW_EC_REG_CUSTOM_PROFILE (u.val0 % 256)
    let val0 := (r.2.1 &&& not_int UW_EC_CUSTOM_PROFILE_BIT) % 256
    let p := (uw_ec_write T r.2.2 UW_EC_REG_CUSTOM_PROFILE val0).2
    let val0 := (val0 ||| UW_EC_CUSTOM_PROFILE_BIT) % 256
    let p := (uw_ec_write T p UW_EC_REG_CUSTOM_PROFILE val0).2
    -- enable manual mode
    let p := (uw_ec_write T p UW_EC_REG_MANUAL_MODE 0x01).2
    -- disable full fan mode
    let r := uw_ec_read T p UW_EC_REG_FAN_MODE val0
    let val0 := r.2.1
    let p := if val0 &&& UW_EC_FAN_MODE_BIT ≠ 0 then
        (uw_ec_write T r.2.2 UW_EC_REG_FAN_MODE (val0 &&& not_int UW_EC_FAN_MODE_BIT)).2
      else r.2.2
    -- enable custom fan table 0 (bit 7)
    let r := uw_ec_read T p UW_EC_REG_USE_CUSTOM_FAN_TABLE_0 val0
    let val0 := r.2.1
    let p := if (val0 >>> 7) &&& 1 = 0 then
        (uw_ec_write T r.2.2 UW_EC_REG_USE_CUSTOM_FAN_TABLE_0 (val0 ||| BIT 7)).2
      else r.2.2
    -- CPU fan table, zone 0
    let p := (uw_ec_write T p UW_EC_REG_CPU_FAN_TABLE_END_TEMP 115).2
    let p := (uw_ec_write T p UW_EC_REG_CPU_FAN_TABLE_START_TEMP 0).2
    let p := (uw_ec_write T p UW_EC_REG_CPU_FAN_TABLE_FAN_SPEED 0x00).2
    -- GPU fan table, zone 0
    let p := (uw_ec_write T p UW_EC_REG_GPU_FAN_TABLE_END_TEMP 120).2
    let p := (uw_ec_write T p UW_EC_REG_GPU_FAN_TABLE_START_TEMP 0).2
    let p := (uw_ec_write T p UW_EC_REG_GPU_FAN_TABLE_FAN_SPEED 0x00).2
    -- for (i = 1; i <= 15; i++)
    let p := (List.range' 1 15).foldl (init_zone T temp_offset) p
    -- enable custom fan table 1 (bit 2)
    let r := uw_ec_read T p UW_EC_REG_USE_CUSTOM_FAN_TABLE_1 (u.val1 % 256)
    let val1 := r.2.1
    let p := if (val1 >>> 2) &&& 1 = 0 then
        (uw_ec_write T r.2.2 UW_EC_REG_USE_CUSTOM_FAN_TABLE_1 (val1 ||| BIT 2)).2
      else r.2.2
    (0, { data with fans_initialized := true }, p)

/-- `fan_set_speed(data, fan_idx, speed)` with `speed : u8`. -/
def fan_set_speed {σ : Type} (T : WmiMethod σ) (u : Indeterminate)
    (data : ibg10_data) (p : Platform σ) (fan_idx : Int) (speed : Nat) :
    Int × ibg10_data × Platform σ :=
  let speed := speed % 256
  let s := if data.fans_initialized then (data, p)
    else (init_custom_fan_table T u data p).2
  let data := s.1
  let p := s.2
  let table_addr := if fan_idx = 0 then UW_EC_REG_CPU_FAN_TABLE_FAN_SPEED
    else UW_EC_REG_GPU_FAN_TABLE_FAN_SPEED
  let direct_addr := if fan_idx = 0 then UW_EC_REG_FAN1_SPEED else UW_EC_REG_FAN2_SPEED
  let speed := if speed > FAN_SPEED_MAX then FAN_SPEED_MAX else speed
  let speed := if speed = 0 then 1
    else if speed < FAN_ON_MIN_SPEED then FAN_ON_MIN_SPEED else speed
  let p := (uw_ec_write T p table_addr speed).2
  -- for (i = 0; i < 5; i++)
  let p := (List.range 5).foldl (fun p _ => (uw_ec_write T p direct_addr speed).2) p
  (0, data, p)

/-- `fan_set_auto(data)`. -/
def fan_set_auto {σ : Type} (T : WmiMethod σ) (u : Indeterminate)
    (data : ibg10_data) (p : Platform σ) : Int × ibg10_data × Platform σ :=
  let r := uw_ec_read T p UW_EC_REG_USE_CUSTOM_FAN_TABLE_1 (u.val1 % 256)
  let val1 := r.2.1
  let p := if (val1 >>> 2) &&& 1 ≠ 0 then
      (uw_ec_write T r.2.2 UW_EC_REG_USE_CUSTOM_FAN_TABLE_1 (val1 &&& not_ulong (BIT 2))).2
    else r.2.2
  let r := uw_ec_read T p UW_EC_REG_USE_CUSTOM_FAN_TABLE_0 (u.val0 % 256)
  let val0 := r.2.1
  let p := if (val0 >>> 7) &&& 1 ≠ 0 then
      (uw_ec_write T r.2.2 UW_EC_REG_USE_CUSTOM_FAN_TABLE_0 (val0 &&& not_ulong (BIT 7))).2
    else r.2.2
  let r := uw_ec_read T p UW_EC_REG_FAN_MODE (u.mode % 256)
  let mode := r.2.1
  let p := if mode &&& UW_EC_FAN_MODE_BIT ≠ 0 then
      (uw_ec_write T r.2.2 UW_EC_REG_FAN_MODE (mode &&& not_int UW_EC_FAN_MODE_BIT)).2
    else r.2.2
  let p := (uw_ec_write T p UW_EC_REG_MANUAL_MODE 0x00).2
  let r := uw_ec_read T p UW_EC_REG_CUSTOM_PROFILE val0
  let val0 := r.2.1
  let p := if val0 &&& UW_EC_CUSTOM_PROFILE_BIT ≠ 0 then
      (uw_ec_write T r.2.2 UW_EC_REG_CUSTOM_PROFILE (val0 &&& not_int UW_EC_CUSTOM_PROFILE_BIT)).2
    else r.2.2
  (0, { data with fans_initialized := false }, p)

/-! ## Sensor bridge and teardown -/

/-- `ibg10_write(dev, type, attr, channel, val)` with `val : long`. -/
def ibg10_write {σ : Type} (T : WmiMethod σ) (u : Indeterminate)
    (data : ibg10_data) (p : Platform σ) (type : hwmon_sensor_types) (attr : Nat)
    (channel : Int) (val : Int) : Int × ibg10_data × Platform σ :=
  match type with
  | hwmon_sensor_types.hwmon_pwm =>
    if attr = hwmon_pwm_input then
      if val < 0 ∨ val > 255 then (- EINVAL, data, p)
      else
        let speed := (Int.tdiv (val * FAN_SPEED_MAX) 255).toNat % 256
        fan_set_speed T u data p channel speed
    else if attr = hwmon_pwm_enable then
      if val = 2 then fan_set_auto T u data p
      else if val = 1 then init_custom_fan_table T u data p
      else (- EINVAL, data, p)
    else (- EOPNOTSUPP, data, p)
  | _ => (- EOPNOTSUPP, data, p)

/-- `ibg10_fan_exit()`: `gdata` is the global pointer, `none` when null. -/
def ibg10_fan_exit {σ : Type} (T : WmiMethod σ) (u : Indeterminate)
    (gdata : Option ibg10_data) (p : Platform σ) : Option ibg10_data × Platform σ :=
  match gdata with
  | none => (none, p)
  | some data => (none, (fan_set_auto T u data p).2.2)

/-! ## Environments -/

/-- Environment: the EC as a register map behind a method that never fails.
Byte 5 of the request selects the operation (0 = write, otherwise read), bytes
0-1 hold the little-endian address, byte 2 the value to store; a read answers
with a buffer whose first byte is the register content. -/
def ec_register_map : WmiMethod (Nat → Nat) where
  evaluate regs in_buf :=
    let addr := in_buf.getD 0 0 + 256 * in_buf.getD 1 0
    if in_buf.getD 5 0 = 0 then
      ({ failure := false, out := none }, Function.update regs addr (in_buf.getD 2 0))
    else
      ({ failure := false, out := some (acpi_object.buffer [regs addr]) }, regs)

/-- Environment: a method whose every call fails. -/
def wmi_always_fails : WmiMethod Unit where
  evaluate _ _ := ({ failure := true, out := none }, ())

/-- Environment: a stub whose state counts the failures still to come; it
fails while the counter is positive and succeeds afterwards. -/
def wmi_fails_first : WmiMethod Nat where
  evaluate n _ :=
    if n > 0 then ({ failure := true, out := none }, n - 1)
    else ({ failure := false, out := none }, 0)

/-- State of the environment after `n` calls with the same request. -/
def wmi_state_after {σ : Type} (T : WmiMethod σ) (buf : List Nat) : Nat → σ → σ
  | 0, s => s
  | n + 1, s => wmi_state_after T buf n (T.evaluate s buf).2

/-- Whether call number `n` (counting from 0) of a run of identical requests
fails. -/
def wmi_call_fails {σ : Type} (T : WmiMethod σ) (buf : List Nat) (n : Nat) (s : σ) : Bool :=
  (T.evaluate (wmi_state_after T buf n s) buf).1.failure

/-- The register map in which every register holds 0. -/
def ec_all_zero : Nat → Nat := fun _ => 0

/-- A platform with empty traces. -/
def Platform.fresh {σ : Type} (s : σ) : Platform σ :=
  { ec := s, wmi_calls := [], ec_ops := [] }

/-- Whether an EC channel invocation is a register write. -/
def EcOp.isWrite : EcOp → Bool
  | EcOp.write _ _ => true
  | EcOp.read _ => false

/-- The register writes among a trace of EC channel invocations. -/
def register_writes (ops : List EcOp) : List EcOp := ops.filter EcOp.isWrite

/-- The values a trace of EC channel invocations writes to register `addr`,
oldest first. -/
def values_written (ops : List EcOp) (addr : Nat) : List Nat :=
  ops.filterMap (fun op =>
    match op with
    | EcOp.write a v => if a = addr then some v else none
    | EcOp.read _ => none)

/-- The operations of the fan table and fan speed controllers. -/
inductive FanCall where
  | enterCustomTable
  | restoreAutomatic
  | setSpeed (fan_idx : Int) (speed : Nat)
deriving DecidableEq, Repr

/-- Perform one controller operation, dropping the return code. -/
def FanCall.exec {σ : Type} (T : WmiMethod σ) (u : Indeterminate)
    (s : ibg10_data × Platform σ) : FanCall → ibg10_data × Platform σ
  | FanCall.enterCustomTable => (init_custom_fan_table T u s.1 s.2).2
  | FanCall.restoreAutomatic => (fan_set_auto T u s.1 s.2).2
  | FanCall.setSpeed fan_idx speed => (fan_set_speed T u s.1 s.2 fan_idx speed).2

/-- Perform a finite sequence of controller operations, first element first. -/
def run_calls {σ : Type} (T : WmiMethod σ) (u : Indeterminate)
    (s : ibg10_data × Platform σ) (calls : List FanCall) : ibg10_data × Platform σ :=
  calls.foldl (FanCall.exec T u) s

/-- The CustomTable configuration of the four mode flags, in the driver's own
tests of them: custom-profile bit set, manual-mode register equal to 1, table-0
enable bit set, table-1 enable bit set. -/
def custom_table_config (regs : Nat → Nat) : Prop :=
  regs UW_EC_REG_CUSTOM_PROFILE &&& UW_EC_CUSTOM_PROFILE_BIT ≠ 0 ∧
  regs UW_EC_REG_MANUAL_MODE = 1 ∧
  (regs UW_EC_REG_USE_CUSTOM_FAN_TABLE_0 >>> 7) &&& 1 = 1 ∧
  (regs UW_EC_REG_USE_CUSTOM_FAN_TABLE_1 >>> 2) &&& 1 = 1

instance (regs : Nat → Nat) : Decidable (custom_table_config regs) := by
  unfold custom_table_config; infer_instance

/-- The set `{1} ∪ [25,200]` of the spec. -/
def speed_in_range (v : Nat) : Prop := v = 1 ∨ (25 ≤ v ∧ v ≤ 200)

instance (v : Nat) : Decidable (speed_in_range v) := by
  unfold speed_in_range; infer_instance

/-- The spec's clamp of a controller-scale value: 200 if above 200; then 1 if
0, else 25 if below 25. -/
def spec_clamp (raw : Nat) : Nat :=
  let raw := if raw > 200 then 200 else raw
  if raw = 0 then 1 else if raw < 25 then 25 else raw

/-- The spec's conversion of a requested duty, `raw = duty * 200 / 255` with
integer truncation, followed by the clamp. -/
def spec_raw (duty : Nat) : Nat := spec_clamp (duty * 200 / 255)

/-- Table-speed register of a channel (index 0 is the primary channel). -/
def table_speed_reg (fan_idx : Int) : Nat :=
  if fan_idx = 0 then UW_EC_REG_CPU_FAN_TABLE_FAN_SPEED else UW_EC_REG_GPU_FAN_TABLE_FAN_SPEED

/-- Direct-speed register of a channel (index 0 is the primary channel). -/
def direct_speed_reg (fan_idx : Int) : Nat :=
  if fan_idx = 0 then UW_EC_REG_FAN1_SPEED else UW_EC_REG_FAN2_SPEED

/-! ## Register-level view of the table programming -/

/-- Effect of one zone-loop iteration on a register map. -/
def zone_regs (regs : Nat → Nat) (i : Nat) : Nat → Nat :=
  Function.update (Function.update (Function.update (Function.update (Function.update
    (Function.update regs
      (0x0f00 + i) (115 + i + 1))
      (0x0f10 + i) (115 + i))
      (0x0f20 + i) 200)
      (0x0f30 + i) (115 + i + 1))
      (0x0f40 + i) (115 + i))
      (0x0f50 + i) 200

/-- Effect of `init_custom_fan_table`, run from the Automatic state, on a
register map. -/
def init_regs (regs : Nat → Nat) : Nat → Nat :=
  let val0 := (regs 0x0727 % 256 &&& not_int 0x40) % 256
  let r := Function.update regs 0x0727 val0
  let val0 := (val0 ||| 0x40) % 256
  let r := Function.update r 0x0727 val0
  let r := Function.update r 0x0741 1
  let val0 := r 0x0751 % 256
  let r := if val0 &&& 0x40 ≠ 0 then Function.update r 0x0751 ((val0 &&& not_int 0x40) % 256)
    else r
  let val0 := r 0x07c5 % 256
  let r := if (val0 >>> 7) &&& 1 = 0 then Function.update r 0x07c5 ((val0 ||| BIT 7) % 256)
    else r
  let r := Function.update r 0x0f00 115
  let r := Function.update r 0x0f10 0
  let r := Function.update r 0x0f20 0
  let r := Function.update r 0x0f30 120
  let r := Function.update r 0x0f40 0
  let r := Function.update r 0x0f50 0
  let r := (List.range' 1 15).foldl zone_regs r
  let val1 := r 0x07c6 % 256
  if (val1 >>> 2) &&& 1 = 0 then Function.update r 0x07c6 ((val1 ||| BIT 2) % 256) else r

/-! ## Basic facts about the EC channel -/

theorem uw_ec_write_arg_eq (addr value : Nat) :
    uw_ec_write_arg addr value =
      [addr &&& 0xff, (addr >>> 8) &&& 0xff, value, 0, 0, 0] ++ List.replicate 34 0 := rfl

theorem uw_ec_read_arg_eq (addr : Nat) :
    uw_ec_read_arg addr =
      [addr &&& 0xff, (addr >>> 8) &&& 0xff, 0, 0, 0, 1] ++ List.replicate 34 0 := rfl

theorem and_ff_eq_mod (a : Nat) : a &&& 0xff = a % 256 :=
  Nat.and_pow_two_sub_one_eq_mod a 8

theorem shr8_and_ff_eq (a : Nat) (ha : a < 65536) : (a >>> 8) &&& 0xff = a / 256 := by
  rw [and_ff_eq_mod, Nat.shiftRight_eq_div_pow]
  have : a / 2 ^ 8 < 256 := by omega
  exact Nat.mod_eq_of_lt this

theorem uw_ec_write_retry_ops {σ : Type} (T : WmiMethod σ) (addr value : Nat) :
    ∀ (n : Nat) (p : Platform σ), (uw_ec_write_retry T addr value n p).2.ec_ops = p.ec_ops := by
  intro n
  induction n with
  | zero =>
    intro p
    simp only [uw_ec_write_retry, wmi_evaluate_method]
    split <;> rfl
  | succ k ih =>
    intro p
    simp only [uw_ec_write_retry, wmi_evaluate_method]
    split
    · split
      · rw [ih]
      · rfl
    · rfl

theorem uw_ec_write_ops {σ : Type} (T : WmiMethod σ) (p : Platform σ) (addr value : Nat) :
    (uw_ec_write T p addr value).2.ec_ops
      = p.ec_ops ++ [EcOp.write (addr % 65536) (value % 256)] := by
  simp only [uw_ec_write, uw_ec_write_retry_ops]

theorem uw_ec_read_ops {σ : Type} (T : WmiMethod σ) (p : Platform σ) (addr value : Nat) :
    (uw_ec_read T p addr value).2.2.ec_ops = p.ec_ops ++ [EcOp.read (addr % 65536)] := by
  simp only [uw_ec_read, wmi_evaluate_method]
  split
  · rfl
  · split <;> rfl

theorem uw_ec_write_never_fails {σ : Type} (T : WmiMethod σ)
    (hT : ∀ s buf, (T.evaluate s buf).1.failure = false) (p : Platform σ) (addr value : Nat) :
    uw_ec_write T p addr value =
      (0, { ec := (T.evaluate p.ec (uw_ec_write_arg (addr % 65536) (value % 256))).2,
            wmi_calls := p.wmi_calls ++ [uw_ec_write_arg (addr % 65536) (value % 256)],
            ec_ops := p.ec_ops ++ [EcOp.write (addr % 65536) (value % 256)] }) := by
  simp [uw_ec_write, uw_ec_write_retry, wmi_evaluate_method, hT]

theorem uw_ec_write_retry_calls {σ : Type} (T : WmiMethod σ) (addr value : Nat) :
    ∀ (n : Nat) (p : Platform σ), ∃ m, 1 ≤ m ∧ m ≤ max n 1 ∧
      (uw_ec_write_retry T addr value n p).2.wmi_calls
        = p.wmi_calls ++ List.replicate m (uw_ec_write_arg addr value) := by
  intro n
  induction n with
  | zero =>
    intro p
    refine ⟨1, le_refl _, by simp, ?_⟩
    simp only [uw_ec_write_retry, wmi_evaluate_method]
    split <;> rfl
  | succ k ih =>
    intro p
    simp only [uw_ec_write_retry, wmi_evaluate_method]
    split
    · split
      · rename_i hk
        obtain ⟨m, hm1, hm2, hm⟩ := ih
          { ec := (T.evaluate p.ec (uw_ec_write_arg addr value)).2,
            wmi_calls := p.wmi_calls ++ [uw_ec_write_arg addr value], ec_ops := p.ec_ops }
        refine ⟨m + 1, by omega, by omega, ?_⟩
        rw [hm]
        simp [List.replicate_succ]
      · exact ⟨1, le_refl _, by omega, rfl⟩
    · exact ⟨1, le_refl _, by omega, rfl⟩

theorem uw_ec_read_calls {σ : Type} (T : WmiMethod σ) (p : Platform σ) (addr value : Nat) :
    (uw_ec_read T p addr value).2.2.wmi_calls
      = p.wmi_calls ++ [uw_ec_read_arg (addr % 65536)] := by
  simp only [uw_ec_read, wmi_evaluate_method]
  split
  · rfl
  · split <;> rfl

theorem spec_clamp_in_range (raw : Nat) : speed_in_range (spec_clamp raw) := by
  unfold speed_in_range spec_clamp
  simp only
  split_ifs <;> omega

theorem spec_clamp_mod (raw : Nat) : spec_clamp raw % 256 = spec_clamp raw := by
  have := spec_clamp_in_range raw
  unfold speed_in_range at this
  omega

theorem table_speed_reg_mod (fan_idx : Int) :
    table_speed_reg fan_idx % 65536 = table_speed_reg fan_idx := by
  unfold table_speed_reg; split <;> rfl

theorem direct_speed_reg_mod (fan_idx : Int) :
    direct_speed_reg fan_idx % 65536 = direct_speed_reg fan_idx := by
  unfold direct_speed_reg; split <;> rfl

/-- The state in which `fan_set_speed` starts its own writes: the incoming one
when the custom table is active, the one left by the lazy initialisation
otherwise. -/
theorem fan_set_speed_eq {σ : Type} (T : WmiMethod σ) (u : Indeterminate) (data : ibg10_data)
    (p : Platform σ) (fan_idx : Int) (speed : Nat) :
    fan_set_speed T u data p fan_idx speed =
      (0, (if data.fans_initialized then (data, p)
            else (init_custom_fan_table T u data p).2).1,
        (List.range 5).foldl
          (fun q _ => (uw_ec_write T q (direct_speed_reg fan_idx) (spec_clamp (speed % 256))).2)
          (uw_ec_write T (if data.fans_initialized then (data, p)
            else (init_custom_fan_table T u data p).2).2
            (table_speed_reg fan_idx) (spec_clamp (speed % 256))).2) := rfl

theorem foldl_write_ops {σ : Type} (T : WmiMethod σ) (q : Platform σ) (a v : Nat) (n : Nat) :
    ((List.range n).foldl (fun p _ => (uw_ec_write T p a v).2) q).ec_ops
      = q.ec_ops ++ List.replicate n (EcOp.write (a % 65536) (v % 256)) := by
  induction n with
  | zero => simp
  | succ k ih =>
    rw [List.range_succ, List.foldl_append]
    simp [ih, List.replicate_succ', uw_ec_write_ops]

theorem fan_set_speed_ops {σ : Type} (T : WmiMethod σ) (u : Indeterminate) (data : ibg10_data)
    (p : Platform σ) (fan_idx : Int) (speed : Nat) :
    (fan_set_speed T u data p fan_idx speed).2.2.ec_ops =
      (if data.fans_initialized then p.ec_ops
        else (init_custom_fan_table T u data p).2.2.ec_ops) ++
      EcOp.write (table_speed_reg fan_idx) (spec_clamp (speed % 256)) ::
        List.replicate 5 (EcOp.write (direct_speed_reg fan_idx) (spec_clamp (speed % 256))) := by
  rw [fan_set_speed_eq]
  simp only [foldl_write_ops, uw_ec_write_ops, spec_clamp_mod, table_speed_reg_mod,
    direct_speed_reg_mod]
  split <;> simp

theorem regmap_decode (a : Nat) (ha : a < 65536) :
    (a &&& 0xff) + 256 * ((a >>> 8) &&& 0xff) = a := by
  rw [and_ff_eq_mod, shr8_and_ff_eq a ha]; omega

theorem uw_ec_write_regmap (p : Platform (Nat → Nat)) (addr value : Nat) :
    uw_ec_write ec_register_map p addr value =
      (0, { ec := Function.update p.ec (addr % 65536) (value % 256),
            wmi_calls := p.wmi_calls ++ [uw_ec_write_arg (addr % 65536) (value % 256)],
            ec_ops := p.ec_ops ++ [EcOp.write (addr % 65536) (value % 256)] }) := by
  rw [uw_ec_write_never_fails ec_register_map (by intro s buf; simp only [ec_register_map]; split <;> rfl)]
  have hd := regmap_decode (addr % 65536) (Nat.mod_lt _ (by norm_num))
  simp only [ec_register_map, uw_ec_write_arg_eq]
  simp [hd]

theorem uw_ec_read_regmap (p : Platform (Nat → Nat)) (addr value : Nat) :
    uw_ec_read ec_register_map p addr value =
      (0, p.ec (addr % 65536) % 256,
        { ec := p.ec,
          wmi_calls := p.wmi_calls ++ [uw_ec_read_arg (addr % 65536)],
          ec_ops := p.ec_ops ++ [EcOp.read (addr % 65536)] }) := by
  have hd := regmap_decode (addr % 65536) (Nat.mod_lt _ (by norm_num))
  simp only [uw_ec_read, wmi_evaluate_method, ec_register_map, uw_ec_read_arg_eq]
  simp [hd]

theorem zone_regs_apply (regs : Nat → Nat) (i x : Nat) :
    zone_regs regs i x =
      if x = 0x0f50 + i then 200
      else if x = 0x0f40 + i then 115 + i
      else if x = 0x0f30 + i then 115 + i + 1
      else if x = 0x0f20 + i then 200
      else if x = 0x0f10 + i then 115 + i
      else if x = 0x0f00 + i then 115 + i + 1
      else regs x := by
  simp only [zone_regs, Function.update_apply]

theorem zone_regs_other (regs : Nat → Nat) (i x : Nat)
    (h : x ≠ 0x0f50 + i ∧ x ≠ 0x0f40 + i ∧ x ≠ 0x0f30 + i ∧ x ≠ 0x0f20 + i ∧
      x ≠ 0x0f10 + i ∧ x ≠ 0x0f00 + i) :
    zone_regs regs i x = regs x := by
  rw [zone_regs_apply, if_neg h.1, if_neg h.2.1, if_neg h.2.2.1, if_neg h.2.2.2.1,
    if_neg h.2.2.2.2.1, if_neg h.2.2.2.2.2]

theorem zone_regs_own (regs : Nat → Nat) (i : Nat) :
    zone_regs regs i (0x0f00 + i) = 116 + i ∧ zone_regs regs i (0x0f10 + i) = 115 + i ∧
    zone_regs regs i (0x0f20 + i) = 200 ∧ zone_regs regs i (0x0f30 + i) = 116 + i ∧
    zone_regs regs i (0x0f40 + i) = 115 + i ∧ zone_regs regs i (0x0f50 + i) = 200 := by
  have n1 : ∀ a b : Nat, a ≠ b → a + i ≠ b + i := by intro a b h; omega
  refine ⟨?_, ?_, ?_, ?_, ?_, ?_⟩
  · rw [zone_regs_apply, if_neg (n1 _ _ (by decide)), if_neg (n1 _ _ (by decide)),
      if_neg (n1 _ _ (by decide)), if_neg (n1 _ _ (by decide)), if_neg (n1 _ _ (by decide)),
      if_pos rfl]
    omega
  · rw [zone_regs_apply, if_neg (n1 _ _ (by decide)), if_neg (n1 _ _ (by decide)),
      if_neg (n1 _ _ (by decide)), if_neg (n1 _ _ (by decide)), if_pos rfl]
  · rw [zone_regs_apply, if_neg (n1 _ _ (by decide)), if_neg (n1 _ _ (by decide)),
      if_neg (n1 _ _ (by decide)), if_pos rfl]
  · rw [zone_regs_apply, if_neg (n1 _ _ (by decide)), if_neg (n1 _ _ (by decide)),
      if_pos rfl]
    omega
  · rw [zone_regs_apply, if_neg (n1 _ _ (by decide)), if_pos rfl]
  · rw [zone_regs_apply, if_pos rfl]

theorem zone_loop_frame (regs : Nat → Nat) (x : Nat)
    (hx : x % 16 = 0 ∨ x < 0x0f00 ∨ 0x0f60 ≤ x) (n : Nat) (hn : n ≤ 15) :
    (List.range' 1 n).foldl zone_regs regs x = regs x := by
  induction n with
  | zero => rfl
  | succ k ih =>
    rw [List.range'_concat, List.foldl_append, List.foldl_cons, List.foldl_nil,
      zone_regs_other _ _ _ (by omega), ih (by omega)]

theorem zone_loop_values (regs : Nat → Nat) (n : Nat) (hn : n ≤ 15) :
    ∀ i, 1 ≤ i → i ≤ n →
      (List.range' 1 n).foldl zone_regs regs (0x0f00 + i) = 116 + i ∧
      (List.range' 1 n).foldl zone_regs regs (0x0f10 + i) = 115 + i ∧
      (List.range' 1 n).foldl zone_regs regs (0x0f20 + i) = 200 ∧
      (List.range' 1 n).foldl zone_regs regs (0x0f30 + i) = 116 + i ∧
      (List.range' 1 n).foldl zone_regs regs (0x0f40 + i) = 115 + i ∧
      (List.range' 1 n).foldl zone_regs regs (0x0f50 + i) = 200 := by
  induction n with
  | zero => intro i h1 h2; omega
  | succ k ih =>
    intro i h1 h2
    have ih := ih (by omega) i h1
    rw [List.range'_concat, List.foldl_append, List.foldl_cons, List.foldl_nil]
    by_cases hi : i = 1 + 1 * k
    · subst hi
      exact zone_regs_own _ _
    · have ih := ih (by omega)
      have hk : k ≤ 14 := by omega
      have hi15 : i ≤ 15 := by omega
      rw [zone_regs_other _ _ _ (by omega), zone_regs_other _ _ _ (by omega),
        zone_regs_other _ _ _ (by omega), zone_regs_other _ _ _ (by omega),
        zone_regs_other _ _ _ (by omega), zone_regs_other _ _ _ (by omega)]
      exact ih

theorem regmap_write_ec (p : Platform (Nat → Nat)) (addr value : Nat) :
    (uw_ec_write ec_register_map p addr value).2.ec
      = Function.update p.ec (addr % 65536) (value % 256) := by
  rw [uw_ec_write_regmap]

theorem regmap_read_ec (p : Platform (Nat → Nat)) (addr value : Nat) :
    (uw_ec_read ec_register_map p addr value).2.2.ec = p.ec := by
  rw [uw_ec_read_regmap]

theorem regmap_read_val (p : Platform (Nat → Nat)) (addr value : Nat) :
    (uw_ec_read ec_register_map p addr value).2.1 = p.ec (addr % 65536) % 256 := by
  rw [uw_ec_read_regmap]

theorem init_zone_regmap_ec (p : Platform (Nat → Nat)) (i : Nat) (hi : i ≤ 15) :
    (init_zone ec_register_map 115 p i).ec = zone_regs p.ec i := by
  have e1 : (0x0f00 + i) % 65536 = 0x0f00 + i := by omega
  have e2 : (0x0f10 + i) % 65536 = 0x0f10 + i := by omega
  have e3 : (0x0f20 + i) % 65536 = 0x0f20 + i := by omega
  have e4 : (0x0f30 + i) % 65536 = 0x0f30 + i := by omega
  have e5 : (0x0f40 + i) % 65536 = 0x0f40 + i := by omega
  have e6 : (0x0f50 + i) % 65536 = 0x0f50 + i := by omega
  have v1 : (115 + i + 1) % 256 = 115 + i + 1 := by omega
  have v2 : (115 + i) % 256 = 115 + i := by omega
  have v3 : 200 % 256 = 200 := by decide
  simp only [init_zone, regmap_write_ec, zone_regs, UW_EC_REG_CPU_FAN_TABLE_END_TEMP,
    UW_EC_REG_CPU_FAN_TABLE_START_TEMP, UW_EC_REG_CPU_FAN_TABLE_FAN_SPEED,
    UW_EC_REG_GPU_FAN_TABLE_END_TEMP, UW_EC_REG_GPU_FAN_TABLE_START_TEMP,
    UW_EC_REG_GPU_FAN_TABLE_FAN_SPEED, FAN_SPEED_MAX, e1, e2, e3, e4, e5, e6, v1, v2, v3]

theorem zone_loop_regmap_ec (l : List Nat) (hl : ∀ i ∈ l, i ≤ 15) :
    ∀ p : Platform (Nat → Nat),
      (l.foldl (init_zone ec_register_map 115) p).ec = l.foldl zone_regs p.ec := by
  induction l with
  | nil => intro p; rfl
  | cons i l ih =>
    intro p
    rw [List.foldl_cons, List.foldl_cons, ih (fun j hj => hl j (List.mem_cons_of_mem _ hj)),
      init_zone_regmap_ec _ _ (hl i (List.mem_cons_self _ _))]

theorem range1_15_le : ∀ i ∈ List.range' 1 15, i ≤ 15 := by decide

set_option maxRecDepth 8000 in
theorem init_regmap_ec (u : Indeterminate) (p : Platform (Nat → Nat)) :
    (init_custom_fan_table ec_register_map u ⟨false⟩ p).2.2.ec = init_regs p.ec := by
  simp only [init_custom_fan_table, regmap_write_ec, regmap_read_ec, regmap_read_val,
    apply_ite Platform.ec, zone_loop_regmap_ec _ range1_15_le,
    UW_EC_REG_CUSTOM_PROFILE, UW_EC_REG_MANUAL_MODE, UW_EC_REG_FAN_MODE,
    UW_EC_REG_USE_CUSTOM_FAN_TABLE_0, UW_EC_REG_USE_CUSTOM_FAN_TABLE_1,
    UW_EC_REG_CPU_FAN_TABLE_END_TEMP, UW_EC_REG_CPU_FAN_TABLE_START_TEMP,
    UW_EC_REG_CPU_FAN_TABLE_FAN_SPEED, UW_EC_REG_GPU_FAN_TABLE_END_TEMP,
    UW_EC_REG_GPU_FAN_TABLE_START_TEMP, UW_EC_REG_GPU_FAN_TABLE_FAN_SPEED,
    UW_EC_CUSTOM_PROFILE_BIT, UW_EC_FAN_MODE_BIT, Nat.reduceMod, Nat.mod_mod,
    Bool.false_eq_true, if_false, init_regs]

set_option maxRecDepth 100000 in
theorem bit6_facts : ∀ w, w < 256 →
    ((w &&& not_int 0x40) % 256 ||| 0x40) % 256 &&& 0x40 ≠ 0 ∧
    ((w &&& not_int 0x40) % 256) &&& 0x40 = 0 := by
  unfold not_int
  decide

set_option maxRecDepth 100000 in
theorem bit7_facts : ∀ w, w < 256 →
    (((w ||| BIT 7) % 256) >>> 7) &&& 1 = 1 ∧
    (¬ (w >>> 7) &&& 1 = 0 → (w >>> 7) &&& 1 = 1) ∧
    (((w &&& not_ulong (BIT 7)) % 256) >>> 7) &&& 1 = 0 := by
  unfold not_ulong BIT
  decide

set_option maxRecDepth 100000 in
theorem bit2_facts : ∀ w, w < 256 →
    (((w ||| BIT 2) % 256) >>> 2) &&& 1 = 1 ∧
    (¬ (w >>> 2) &&& 1 = 0 → (w >>> 2) &&& 1 = 1) ∧
    (((w &&& not_ulong (BIT 2)) % 256) >>> 2) &&& 1 = 0 := by
  unfold not_ulong BIT
  decide

theorem shr7_mod (w : Nat) : ((w % 256) >>> 7) &&& 1 = (w >>> 7) &&& 1 := by
  simp only [Nat.shiftRight_eq_div_pow, Nat.and_one_is_mod]
  omega

theorem shr2_mod (w : Nat) : ((w % 256) >>> 2) &&& 1 = (w >>> 2) &&& 1 := by
  simp only [Nat.shiftRight_eq_div_pow, Nat.and_one_is_mod]
  omega

theorem and_bit6_mod (w : Nat) : w % 256 &&& 0x40 = w &&& 0x40 := by
  apply Nat.eq_of_testBit_eq
  intro i
  rw [Nat.testBit_and, Nat.testBit_and, show (256 : Nat) = 2 ^ 8 from rfl,
    Nat.testBit_mod_two_pow, show (0x40 : Nat) = 2 ^ 6 from rfl, Nat.testBit_two_pow]
  by_cases h : 6 = i
  · subst h; simp
  · simp [h]

theorem zone_loop_frame15 (r : Nat → Nat) (x : Nat)
    (hx : x % 16 = 0 ∨ x < 0x0f00 ∨ 0x0f60 ≤ x) :
    (List.range' 1 15).foldl zone_regs r x = r x :=
  zone_loop_frame r x hx 15 (le_refl _)

theorem init_regs_mode (regs : Nat → Nat) :
    init_regs regs 0x0727 = ((regs 0x0727 % 256 &&& not_int 0x40) % 256 ||| 0x40) % 256 ∧
    init_regs regs 0x0741 = 1 ∧
    init_regs regs 0x07c5 =
      (if ((regs 0x07c5 % 256) >>> 7) &&& 1 = 0 then (regs 0x07c5 % 256 ||| BIT 7) % 256
        else regs 0x07c5) ∧
    init_regs regs 0x07c6 =
      (if ((regs 0x07c6 % 256) >>> 2) &&& 1 = 0 then (regs 0x07c6 % 256 ||| BIT 2) % 256
        else regs 0x07c6) := by
  refine ⟨?_, ?_, ?_, ?_⟩ <;>
    simp [init_regs, ite_apply, Function.update_apply, zone_loop_frame15 _ 0x0727 (by decide),
      zone_loop_frame15 _ 0x0741 (by decide), zone_loop_frame15 _ 0x0751 (by decide),
      zone_loop_frame15 _ 0x07c5 (by decide), zone_loop_frame15 _ 0x07c6 (by decide)]

theorem init_regs_config (regs : Nat → Nat) : custom_table_config (init_regs regs) := by
  obtain ⟨h1, h2, h3, h4⟩ := init_regs_mode regs
  have h27 := (bit6_facts (regs 0x0727 % 256) (Nat.mod_lt _ (by norm_num))).1
  have h5 := bit7_facts (regs 0x07c5 % 256) (Nat.mod_lt _ (by norm_num))
  have h6 := bit2_facts (regs 0x07c6 % 256) (Nat.mod_lt _ (by norm_num))
  unfold custom_table_config
  simp only [UW_EC_REG_CUSTOM_PROFILE, UW_EC_CUSTOM_PROFILE_BIT, UW_EC_REG_MANUAL_MODE,
    UW_EC_REG_USE_CUSTOM_FAN_TABLE_0, UW_EC_REG_USE_CUSTOM_FAN_TABLE_1]
  rw [h1, h2, h3, h4]
  refine ⟨h27, rfl, ?_, ?_⟩
  · split
    · exact h5.1
    · rename_i hc
      rw [← shr7_mod]
      exact h5.2.1 hc
  · split
    · exact h6.1
    · rename_i hc
      rw [← shr2_mod]
      exact h6.2.1 hc

theorem init_regs_zone0 (regs : Nat → Nat) :
    init_regs regs 0x0f10 = 0 ∧ init_regs regs 0x0f00 = 115 ∧ init_regs regs 0x0f20 = 0 ∧
    init_regs regs 0x0f40 = 0 ∧ init_regs regs 0x0f30 = 120 ∧ init_regs regs 0x0f50 = 0 := by
  refine ⟨?_, ?_, ?_, ?_, ?_, ?_⟩ <;>
    simp [init_regs, ite_apply, Function.update_apply, zone_loop_frame15 _ 0x0f00 (by decide),
      zone_loop_frame15 _ 0x0f10 (by decide), zone_loop_frame15 _ 0x0f20 (by decide),
      zone_loop_frame15 _ 0x0f30 (by decide), zone_loop_frame15 _ 0x0f40 (by decide),
      zone_loop_frame15 _ 0x0f50 (by decide)]

theorem init_regs_zone (regs : Nat → Nat) (i : Nat) (h1 : 1 ≤ i) (h2 : i ≤ 15) :
    init_regs regs (0x0f10 + i) = 115 + i ∧ init_regs regs (0x0f00 + i) = 116 + i ∧
    init_regs regs (0x0f20 + i) = 200 ∧
    init_regs regs (0x0f40 + i) = 115 + i ∧ init_regs regs (0x0f30 + i) = 116 + i ∧
    init_regs regs (0x0f50 + i) = 200 := by
  have tail : ∀ (r : Nat → Nat) (x : Nat), x ≠ 0x07c6 →
      (if ((r 0x07c6 % 256) >>> 2) &&& 1 = 0 then
        Function.update r 0x07c6 ((r 0x07c6 % 256 ||| BIT 2) % 256) else r) x = r x := by
    intro r x hx
    split
    · exact Function.update_noteq hx _ _
    · rfl
  simp only [init_regs]
  rw [tail _ _ (by omega), tail _ _ (by omega), tail _ _ (by omega), tail _ _ (by omega),
    tail _ _ (by omega), tail _ _ (by omega)]
  obtain ⟨a, b, c, d, e, f⟩ := zone_loop_values
    (Function.update (Function.update (Function.update (Function.update (Function.update
      (Function.update _ 0x0f00 115) 0x0f10 0) 0x0f20 0) 0x0f30 120) 0x0f40 0) 0x0f50 0)
    15 (le_refl _) i h1 h2
  exact ⟨b, a, c, e, d, f⟩

theorem fan_set_auto_flag {σ : Type} (T : WmiMethod σ) (u : Indeterminate) (data : ibg10_data)
    (p : Platform σ) :
    (fan_set_auto T u data p).1 = 0 ∧
    (fan_set_auto T u data p).2.1.fans_initialized = false := ⟨rfl, rfl⟩

theorem fan_set_auto_regmap_manual (u : Indeterminate) (data : ibg10_data)
    (p : Platform (Nat → Nat)) :
    (fan_set_auto ec_register_map u data p).2.2.ec UW_EC_REG_MANUAL_MODE = 0 := by
  simp only [fan_set_auto, regmap_write_ec, regmap_read_ec, regmap_read_val,
    apply_ite Platform.ec, UW_EC_REG_CUSTOM_PROFILE, UW_EC_REG_MANUAL_MODE]
  simp [ite_apply, Function.update_apply]

theorem foldl_write_regmap_ec (q : Platform (Nat → Nat)) (a v : Nat) (n : Nat) :
    ((List.range n).foldl (fun p _ => (uw_ec_write ec_register_map p a v).2) q).ec
      = if n = 0 then q.ec else Function.update q.ec (a % 65536) (v % 256) := by
  induction n with
  | zero => rfl
  | succ k ih =>
    rw [List.range_succ, List.foldl_append, List.foldl_cons, List.foldl_nil, regmap_write_ec, ih]
    split
    · simp
    · simp

theorem fan_set_speed_regmap_ec (u : Indeterminate) (data : ibg10_data)
    (p : Platform (Nat → Nat)) (fan_idx : Int) (speed : Nat) :
    (fan_set_speed ec_register_map u data p fan_idx speed).2.2.ec =
      Function.update
        (Function.update
          (if data.fans_initialized then p.ec
            else (init_custom_fan_table ec_register_map u data p).2.2.ec)
          (table_speed_reg fan_idx) (spec_clamp (speed % 256)))
        (direct_speed_reg fan_idx) (spec_clamp (speed % 256)) := by
  rw [fan_set_speed_eq]
  simp only [foldl_write_regmap_ec, regmap_write_ec, spec_clamp_mod, table_speed_reg_mod,
    direct_speed_reg_mod]
  rw [if_neg (by decide)]
  cases data.fans_initialized <;> rfl

theorem duty_to_speed (duty : Int) (h0 : 0 ≤ duty) (h1 : duty ≤ 255) :
    (Int.tdiv (duty * FAN_SPEED_MAX) 255).toNat % 256 = duty.toNat * 200 / 255 := by
  obtain ⟨n, rfl⟩ := Int.eq_ofNat_of_zero_le h0
  have hn : n ≤ 255 := by omega
  have e : Int.tdiv ((n : Int) * (FAN_SPEED_MAX : Nat)) 255 = ((n * 200 / 255 : Nat) : Int) := by
    rw [Int.ofNat_tdiv]
    simp [FAN_SPEED_MAX]
  rw [e, Int.toNat_ofNat, Int.toNat_ofNat]
  omega

theorem ibg10_write_pwm_input {σ : Type} (T : WmiMethod σ) (u : Indeterminate)
    (data : ibg10_data) (p : Platform σ) (channel duty : Int) (h0 : 0 ≤ duty)
    (h1 : duty ≤ 255) :
    ibg10_write T u data p hwmon_sensor_types.hwmon_pwm hwmon_pwm_input channel duty
      = fan_set_speed T u data p channel (duty.toNat * 200 / 255) := by
  have hr : ¬ (duty < 0 ∨ duty > 255) := by omega
  simp only [ibg10_write, if_true, if_neg hr, duty_to_speed duty h0 h1]

theorem duty_speed_mod (duty : Int) (h0 : 0 ≤ duty) (h1 : duty ≤ 255) :
    spec_clamp (duty.toNat * 200 / 255 % 256) = spec_raw duty.toNat := by
  have : duty.toNat * 200 / 255 % 256 = duty.toNat * 200 / 255 := by omega
  rw [this]; rfl

theorem foldl_write_never_fails {σ : Type} (T : WmiMethod σ)
    (hT : ∀ s buf, (T.evaluate s buf).1.failure = false) (q : Platform σ) (a v : Nat) (n : Nat) :
    ((List.range n).foldl (fun p _ => (uw_ec_write T p a v).2) q).wmi_calls
      = q.wmi_calls ++ List.replicate n (uw_ec_write_arg (a % 65536) (v % 256)) := by
  induction n with
  | zero => simp
  | succ k ih =>
    rw [List.range_succ, List.foldl_append, List.foldl_cons, List.foldl_nil,
      uw_ec_write_never_fails T hT]
    simp [ih, List.replicate_succ']

theorem speed_regs_ne (fan_idx : Int) : table_speed_reg fan_idx ≠ direct_speed_reg fan_idx := by
  unfold table_speed_reg direct_speed_reg UW_EC_REG_CPU_FAN_TABLE_FAN_SPEED
    UW_EC_REG_GPU_FAN_TABLE_FAN_SPEED UW_EC_REG_FAN1_SPEED UW_EC_REG_FAN2_SPEED
  split <;> decide

theorem fan_set_speed_regmap_stored (u : Indeterminate) (data : ibg10_data)
    (p : Platform (Nat → Nat)) (fan_idx : Int) (speed : Nat) :
    (fan_set_speed ec_register_map u data p fan_idx speed).2.2.ec (table_speed_reg fan_idx)
      = spec_clamp (speed % 256) ∧
    (fan_set_speed ec_register_map u data p fan_idx speed).2.2.ec (direct_speed_reg fan_idx)
      = spec_clamp (speed % 256) := by
  rw [fan_set_speed_regmap_ec]
  constructor
  · rw [Function.update_noteq (speed_regs_ne fan_idx), Function.update_same]
  · rw [Function.update_same]

theorem ibg10_write_regmap_stored (u : Indeterminate) (data : ibg10_data)
    (p : Platform (Nat → Nat)) (channel duty : Int) (h0 : 0 ≤ duty) (h1 : duty ≤ 255) :
    (ibg10_write ec_register_map u data p hwmon_sensor_types.hwmon_pwm hwmon_pwm_input
        channel duty).2.2.ec (table_speed_reg channel) = spec_raw duty.toNat ∧
    (ibg10_write ec_register_map u data p hwmon_sensor_types.hwmon_pwm hwmon_pwm_input
        channel duty).2.2.ec (direct_speed_reg channel) = spec_raw duty.toNat := by
  rw [ibg10_write_pwm_input _ u data p channel duty h0 h1, ← duty_speed_mod duty h0 h1]
  exact fan_set_speed_regmap_stored u data p channel _

theorem fan_set_auto_ops_manual {σ : Type} (T : WmiMethod σ) (u : Indeterminate)
    (data : ibg10_data) (p : Platform σ) :
    EcOp.write UW_EC_REG_MANUAL_MODE 0 ∈
      register_writes ((fan_set_auto T u data p).2.2.ec_ops.drop p.ec_ops.length) := by
  simp only [fan_set_auto, apply_ite Platform.ec_ops, uw_ec_write_ops, uw_ec_read_ops]
  split_ifs <;> simp [register_writes, EcOp.isWrite, UW_EC_REG_MANUAL_MODE]

theorem fan_set_auto_regmap_idle (u : Indeterminate) (data : ibg10_data)
    (p : Platform (Nat → Nat))
    (h6 : (p.ec 0x07c6 >>> 2) &&& 1 = 0) (h5 : (p.ec 0x07c5 >>> 7) &&& 1 = 0)
    (hm : p.ec 0x0751 &&& 0x40 = 0) (hp : p.ec 0x0727 &&& 0x40 = 0) :
    (fan_set_auto ec_register_map u data p).2.2.ec_ops =
      p.ec_ops ++ [EcOp.read 0x07c6, EcOp.read 0x07c5, EcOp.read 0x0751,
        EcOp.write 0x0741 0, EcOp.read 0x0727] := by
  have e6 : ¬ ((p.ec 0x07c6 % 256) >>> 2) &&& 1 ≠ 0 := by rw [shr2_mod, h6]; simp
  have e5 : ¬ ((p.ec 0x07c5 % 256) >>> 7) &&& 1 ≠ 0 := by rw [shr7_mod, h5]; simp
  have em : ¬ (p.ec 0x0751 % 256) &&& 0x40 ≠ 0 := by rw [and_bit6_mod, hm]; simp
  have ep : ¬ (p.ec 0x0727 % 256) &&& 0x40 ≠ 0 := by rw [and_bit6_mod, hp]; simp
  simp only [fan_set_auto, UW_EC_REG_USE_CUSTOM_FAN_TABLE_1, UW_EC_REG_USE_CUSTOM_FAN_TABLE_0,
    UW_EC_REG_FAN_MODE, UW_EC_FAN_MODE_BIT, UW_EC_REG_MANUAL_MODE, UW_EC_REG_CUSTOM_PROFILE,
    UW_EC_CUSTOM_PROFILE_BIT, uw_ec_read_regmap, Nat.reduceMod, e6, if_false]
  simp only [uw_ec_read_regmap, Nat.reduceMod, e5, if_false]
  simp only [uw_ec_read_regmap, Nat.reduceMod, em, if_false]
  simp only [uw_ec_write_regmap, uw_ec_read_regmap, Nat.reduceMod]
  have e : Function.update p.ec 1857 0 1831 = p.ec 1831 :=
    Function.update_noteq (by decide) _ _
  simp only [e, ep, if_false, List.append_assoc, List.singleton_append]
  rfl

theorem custom_table_config_update (regs : Nat → Nat) (a v : Nat)
    (h : a ≠ 0x0727 ∧ a ≠ 0x0741 ∧ a ≠ 0x07c5 ∧ a ≠ 0x07c6) :
    custom_table_config (Function.update regs a v) ↔ custom_table_config regs := by
  unfold custom_table_config UW_EC_REG_CUSTOM_PROFILE UW_EC_REG_MANUAL_MODE
    UW_EC_REG_USE_CUSTOM_FAN_TABLE_0 UW_EC_REG_USE_CUSTOM_FAN_TABLE_1
  rw [Function.update_noteq (Ne.symm h.1), Function.update_noteq (Ne.symm h.2.1),
    Function.update_noteq (Ne.symm h.2.2.1), Function.update_noteq (Ne.symm h.2.2.2)]

theorem speed_regs_not_mode (fan_idx : Int) :
    (table_speed_reg fan_idx ≠ 0x0727 ∧ table_speed_reg fan_idx ≠ 0x0741 ∧
      table_speed_reg fan_idx ≠ 0x07c5 ∧ table_speed_reg fan_idx ≠ 0x07c6) ∧
    (direct_speed_reg fan_idx ≠ 0x0727 ∧ direct_speed_reg fan_idx ≠ 0x0741 ∧
      direct_speed_reg fan_idx ≠ 0x07c5 ∧ direct_speed_reg fan_idx ≠ 0x07c6) := by
  unfold table_speed_reg direct_speed_reg UW_EC_REG_CPU_FAN_TABLE_FAN_SPEED
    UW_EC_REG_GPU_FAN_TABLE_FAN_SPEED UW_EC_REG_FAN1_SPEED UW_EC_REG_FAN2_SPEED
  split <;> decide

theorem init_custom_fan_table_regmap (u : Indeterminate) (data : ibg10_data)
    (p : Platform (Nat → Nat)) :
    (init_custom_fan_table ec_register_map u data p).2.1.fans_initialized = true ∧
    (init_custom_fan_table ec_register_map u data p).2.2.ec
      = if data.fans_initialized then p.ec else init_regs p.ec := by
  obtain ⟨b⟩ := data
  cases b
  · exact ⟨rfl, init_regmap_ec u p⟩
  · exact ⟨rfl, rfl⟩

/-- One controller operation keeps the flag in step with the mode registers. -/
theorem exec_preserves_flag_config (u : Indeterminate)
    (s : ibg10_data × Platform (Nat → Nat))
    (h : s.1.fans_initialized = true ↔ custom_table_config s.2.ec) (c : FanCall) :
    (FanCall.exec ec_register_map u s c).1.fans_initialized = true ↔
      custom_table_config (FanCall.exec ec_register_map u s c).2.ec := by
  obtain ⟨data, p⟩ := s
  have hi := init_custom_fan_table_regmap u data p
  cases c with
  | enterCustomTable =>
    show (init_custom_fan_table ec_register_map u data p).2.1.fans_initialized = true ↔
      custom_table_config (init_custom_fan_table ec_register_map u data p).2.2.ec
    rw [hi.1, hi.2]
    by_cases hf : data.fans_initialized = true
    · rw [if_pos hf]; exact ⟨fun _ => h.1 hf, fun _ => rfl⟩
    · rw [if_neg hf]; exact ⟨fun _ => init_regs_config _, fun _ => rfl⟩
  | restoreAutomatic =>
    show (fan_set_auto ec_register_map u data p).2.1.fans_initialized = true ↔
      custom_table_config (fan_set_auto ec_register_map u data p).2.2.ec
    have hm := fan_set_auto_regmap_manual u data p
    constructor
    · intro hc; exact absurd hc (by simp [(fan_set_auto_flag ec_register_map u data p).2])
    · intro hc
      have := hc.2.1
      rw [hm] at this
      exact absurd this (by decide)
  | setSpeed fan_idx speed =>
    show (fan_set_speed ec_register_map u data p fan_idx speed).2.1.fans_initialized = true ↔
      custom_table_config (fan_set_speed ec_register_map u data p fan_idx speed).2.2.ec
    rw [fan_set_speed_regmap_ec,
      custom_table_config_update _ _ _ (speed_regs_not_mode fan_idx).2,
      custom_table_config_update _ _ _ (speed_regs_not_mode fan_idx).1, fan_set_speed_eq]
    by_cases hf : data.fans_initialized = true
    · simp only [if_pos hf]; exact h
    · simp only [if_neg hf, hi.1, hi.2]
      exact ⟨fun _ => init_regs_config _, fun _ => trivial⟩

theorem run_calls_preserves_flag_config (u : Indeterminate) (calls : List FanCall) :
    ∀ s : ibg10_data × Platform (Nat → Nat),
      (s.1.fans_initialized = true ↔ custom_table_config s.2.ec) →
      ((run_calls ec_register_map u s calls).1.fans_initialized = true ↔
        custom_table_config (run_calls ec_register_map u s calls).2.ec) := by
  induction calls with
  | nil => intro s h; exact h
  | cons c cs ih =>
    intro s h
    exact ih _ (exec_preserves_flag_config u s h c)
theorem values_written_write {σ : Type} (T : WmiMethod σ) (q : Platform σ) (a v addr : Nat) :
    values_written (uw_ec_write T q a v).2.ec_ops addr =
      values_written q.ec_ops addr ++ (if a % 65536 = addr then [v % 256] else []) := by
  rw [uw_ec_write_ops]
  unfold values_written
  rw [List.filterMap_append]
  split <;> simp [List.filterMap_cons, *]

theorem values_written_write_ne {σ : Type} (T : WmiMethod σ) (q : Platform σ) (a v addr : Nat)
    (h : a % 65536 ≠ addr) :
    values_written (uw_ec_write T q a v).2.ec_ops addr = values_written q.ec_ops addr := by
  rw [values_written_write, if_neg h, List.append_nil]

theorem values_written_read {σ : Type} (T : WmiMethod σ) (q : Platform σ) (a x addr : Nat) :
    values_written (uw_ec_read T q a x).2.2.ec_ops addr = values_written q.ec_ops addr := by
  rw [uw_ec_read_ops]
  unfold values_written
  rw [List.filterMap_append]
  simp [List.filterMap_cons]

theorem values_written_init_zone {σ : Type} (T : WmiMethod σ) (q : Platform σ) (i addr : Nat)
    (h1 : 1 ≤ i) (h2 : i ≤ 15) (ha : addr % 16 = 0 ∨ addr < 0x0f00 ∨ 0x0f60 ≤ addr) :
    values_written (init_zone T 115 q i).ec_ops addr = values_written q.ec_ops addr := by
  unfold init_zone UW_EC_REG_CPU_FAN_TABLE_END_TEMP UW_EC_REG_CPU_FAN_TABLE_START_TEMP
    UW_EC_REG_CPU_FAN_TABLE_FAN_SPEED UW_EC_REG_GPU_FAN_TABLE_END_TEMP
    UW_EC_REG_GPU_FAN_TABLE_START_TEMP UW_EC_REG_GPU_FAN_TABLE_FAN_SPEED
  rw [values_written_write_ne _ _ _ _ _ (by omega), values_written_write_ne _ _ _ _ _ (by omega),
    values_written_write_ne _ _ _ _ _ (by omega), values_written_write_ne _ _ _ _ _ (by omega),
    values_written_write_ne _ _ _ _ _ (by omega), values_written_write_ne _ _ _ _ _ (by omega)]

theorem values_written_zone_loop {σ : Type} (T : WmiMethod σ) (addr : Nat)
    (ha : addr % 16 = 0 ∨ addr < 0x0f00 ∨ 0x0f60 ≤ addr) (l : List Nat)
    (hl : ∀ i ∈ l, 1 ≤ i ∧ i ≤ 15) :
    ∀ q : Platform σ,
      values_written (l.foldl (init_zone T 115) q).ec_ops addr = values_written q.ec_ops addr := by
  induction l with
  | nil => intro q; rfl
  | cons i l ih =>
    intro q
    rw [List.foldl_cons, ih (fun j hj => hl j (List.mem_cons_of_mem _ hj)),
      values_written_init_zone T q i addr (hl i (List.mem_cons_self _ _)).1
        (hl i (List.mem_cons_self _ _)).2 ha]

theorem range1_15_bounds : ∀ i ∈ List.range' 1 15, 1 ≤ i ∧ i ≤ 15 := by decide

theorem values_written_cond_write {σ : Type} (T : WmiMethod σ) (c : Prop) [Decidable c]
    (q : Platform σ) (a v addr : Nat) (h : a % 65536 ≠ addr) :
    values_written (if c then (uw_ec_write T q a v).2 else q).ec_ops addr
      = values_written q.ec_ops addr := by
  split
  · exact values_written_write_ne T q a v addr h
  · rfl

theorem values_written_init {σ : Type} (T : WmiMethod σ) (u : Indeterminate) (p : Platform σ)
    (addr : Nat) (hA : addr = 0x0f20 ∨ addr = 0x0f50 ∨ addr = 0x1804 ∨ addr = 0x1809) :
    values_written (init_custom_fan_table T u ⟨false⟩ p).2.2.ec_ops addr =
      values_written p.ec_ops addr ++ (if addr = 0x0f20 ∨ addr = 0x0f50 then [0] else []) := by
  have ha : addr % 16 = 0 ∨ addr < 0x0f00 ∨ 0x0f60 ≤ addr := by omega
  simp only [init_custom_fan_table, Bool.false_eq_true, if_false, UW_EC_REG_CUSTOM_PROFILE,
    UW_EC_REG_MANUAL_MODE, UW_EC_REG_FAN_MODE, UW_EC_REG_USE_CUSTOM_FAN_TABLE_0,
    UW_EC_REG_USE_CUSTOM_FAN_TABLE_1, UW_EC_REG_CPU_FAN_TABLE_END_TEMP,
    UW_EC_REG_CPU_FAN_TABLE_START_TEMP, UW_EC_REG_CPU_FAN_TABLE_FAN_SPEED,
    UW_EC_REG_GPU_FAN_TABLE_END_TEMP, UW_EC_REG_GPU_FAN_TABLE_START_TEMP,
    UW_EC_REG_GPU_FAN_TABLE_FAN_SPEED]
  rw [values_written_cond_write T _ _ _ _ _ (by omega), values_written_read,
    values_written_zone_loop T addr ha _ range1_15_bounds,
    values_written_write, values_written_write_ne _ _ _ _ _ (by omega),
    values_written_write_ne _ _ _ _ _ (by omega),
    values_written_write, values_written_write_ne _ _ _ _ _ (by omega),
    values_written_write_ne _ _ _ _ _ (by omega),
    values_written_cond_write T _ _ _ _ _ (by omega), values_written_read,
    values_written_cond_write T _ _ _ _ _ (by omega), values_written_read,
    values_written_write_ne _ _ _ _ _ (by omega), values_written_write_ne _ _ _ _ _ (by omega),
    values_written_write_ne _ _ _ _ _ (by omega), values_written_read]
  rcases hA with h | h | h | h <;> subst h <;> simp

theorem values_written_append (l₁ l₂ : List EcOp) (addr : Nat) :
    values_written (l₁ ++ l₂) addr = values_written l₁ addr ++ values_written l₂ addr := by
  unfold values_written
  exact List.filterMap_append _ _ _

theorem values_written_speed_writes (fan_idx : Int) (c : Nat) :
    values_written (EcOp.write (table_speed_reg fan_idx) c ::
        List.replicate 5 (EcOp.write (direct_speed_reg fan_idx) c)) (table_speed_reg fan_idx)
      = [c] ∧
    values_written (EcOp.write (table_speed_reg fan_idx) c ::
        List.replicate 5 (EcOp.write (direct_speed_reg fan_idx) c)) (direct_speed_reg fan_idx)
      = List.replicate 5 c := by
  have h := speed_regs_ne fan_idx
  simp [values_written, List.replicate, List.filterMap_cons, h, h.symm]

theorem speed_regs_cases (fan_idx : Int) :
    (table_speed_reg fan_idx = 0x0f20 ∨ table_speed_reg fan_idx = 0x0f50) ∧
    (direct_speed_reg fan_idx = 0x1804 ∨ direct_speed_reg fan_idx = 0x1809) := by
  unfold table_speed_reg direct_speed_reg
  split
  · exact ⟨Or.inl rfl, Or.inl rfl⟩
  · exact ⟨Or.inr rfl, Or.inr rfl⟩

theorem fan_set_speed_values_written {σ : Type} (T : WmiMethod σ) (u : Indeterminate)
    (data : ibg10_data) (p : Platform σ) (fan_idx : Int) (speed : Nat) :
    values_written (fan_set_speed T u data p fan_idx speed).2.2.ec_ops (direct_speed_reg fan_idx)
      = values_written p.ec_ops (direct_speed_reg fan_idx)
        ++ List.replicate 5 (spec_clamp (speed % 256)) ∧
    values_written (fan_set_speed T u data p fan_idx speed).2.2.ec_ops (table_speed_reg fan_idx)
      = values_written p.ec_ops (table_speed_reg fan_idx)
        ++ (if data.fans_initialized then [] else [0]) ++ [spec_clamp (speed % 256)] := by
  obtain ⟨ht, hd⟩ := speed_regs_cases fan_idx
  obtain ⟨wt, wd⟩ := values_written_speed_writes fan_idx (spec_clamp (speed % 256))
  rw [fan_set_speed_ops, values_written_append, values_written_append, wt, wd]
  obtain ⟨b⟩ := data
  cases b
  · simp only [Bool.false_eq_true, if_false]
    rw [values_written_init T u p _ (by omega), values_written_init T u p _ (by omega),
      if_neg (by omega), if_pos ht, List.append_nil]
    exact ⟨rfl, rfl⟩
  · simp only [if_true, List.append_nil]
    exact ⟨trivial, trivial⟩

/-! ## The claims -/

/-- C5. Write retry policy of `uw_ec_write`: if the transport fails the first
`k` calls it receives (and, when `k ≤ 2`, answers call number `k + 1`), the
write makes `min (k + 1) 3` transport calls and returns 0 exactly when `k ≤ 2`,
`-EIO` otherwise.  `k = 2` is the stub failing twice then succeeding, `k ≥ 3`
the stub failing three consecutive times. -/
theorem uw_ec_write_retry_policy {σ : Type} (T : WmiMethod σ) (p : Platform σ)
    (addr value k : Nat)
    (hfail : ∀ i, i < k →
      wmi_call_fails T (uw_ec_write_arg (addr % 65536) (value % 256)) i p.ec = true)
    (hok : k ≤ 2 →
      wmi_call_fails T (uw_ec_write_arg (addr % 65536) (value % 256)) k p.ec = false) :
    (uw_ec_write T p addr value).1 = (if k ≤ 2 then 0 else - EIO) ∧
    (uw_ec_write T p addr value).2.wmi_calls.length = p.wmi_calls.length + min (k + 1) 3 := by
  rcases k with _ | _ | _ | k
  · have h0 := hok (by omega)
    simp only [wmi_call_fails, wmi_state_after] at h0
    simp [uw_ec_write, uw_ec_write_retry, wmi_evaluate_method, h0]
  · have h0 := hfail 0 (by omega)
    have h1 := hok (by omega)
    simp only [wmi_call_fails, wmi_state_after] at h0 h1
    simp [uw_ec_write, uw_ec_write_retry, wmi_evaluate_method, h0, h1]
  · have h0 := hfail 0 (by omega)
    have h1 := hfail 1 (by omega)
    have h2 := hok (by omega)
    simp only [wmi_call_fails, wmi_state_after] at h0 h1 h2
    simp [uw_ec_write, uw_ec_write_retry, wmi_evaluate_method, h0, h1, h2]
  · have h0 := hfail 0 (by omega)
    have h1 := hfail 1 (by omega)
    have h2 := hfail 2 (by omega)
    simp only [wmi_call_fails, wmi_state_after] at h0 h1 h2
    simp [uw_ec_write, uw_ec_write_retry, wmi_evaluate_method, h0, h1, h2]

/-- Witness for C5: the stub that fails twice and then succeeds. -/
theorem uw_ec_write_retry_policy_witness :
    (∀ i, i < 2 → wmi_call_fails wmi_fails_first
        (uw_ec_write_arg (0x0f20 % 65536) (100 % 256)) i (Platform.fresh 2).ec = true) ∧
    (2 ≤ 2 → wmi_call_fails wmi_fails_first
        (uw_ec_write_arg (0x0f20 % 65536) (100 % 256)) 2 (Platform.fresh 2).ec = false) ∧
    (uw_ec_write wmi_fails_first (Platform.fresh 2) 0x0f20 100).1 = 0 ∧
    (uw_ec_write wmi_fails_first (Platform.fresh 2) 0x0f20 100).2.wmi_calls.length = 3 :=
  ⟨by decide, by decide,
    uw_ec_write_retry_policy wmi_fails_first (Platform.fresh 2) 0x0f20 100 2
      (by decide) (by decide)⟩

/-- C6. A PWM duty write below 0 or above 255, and a PWM enable write of a
value other than 1 or 2, return `-EINVAL` and leave the driver state, the
environment and both traces untouched: no EC read or write, no transport call,
`fans_initialized` unchanged. -/
theorem ibg10_write_rejects_invalid {σ : Type} (T : WmiMethod σ) (u : Indeterminate)
    (data : ibg10_data) (p : Platform σ) (attr : Nat) (channel val : Int)
    (h : (attr = hwmon_pwm_input ∧ (val < 0 ∨ val > 255)) ∨
         (attr = hwmon_pwm_enable ∧ val ≠ 1 ∧ val ≠ 2)) :
    ibg10_write T u data p hwmon_sensor_types.hwmon_pwm attr channel val
      = (- EINVAL, data, p) := by
  rcases h with ⟨ha, hv⟩ | ⟨ha, h1, h2⟩
  · subst ha
    simp [ibg10_write, hv]
  · subst ha
    simp [ibg10_write, h1, h2, hwmon_pwm_enable, hwmon_pwm_input]

/-- Witness for C6: duty 256 on the secondary channel of a register-backed EC. -/
theorem ibg10_write_rejects_invalid_witness :
    ((hwmon_pwm_input = hwmon_pwm_input ∧ ((256 : Int) < 0 ∨ (256 : Int) > 255)) ∨
      (hwmon_pwm_input = hwmon_pwm_enable ∧ (256 : Int) ≠ 1 ∧ (256 : Int) ≠ 2)) ∧
    ibg10_write ec_register_map ⟨0, 0, 0⟩ ⟨true⟩ (Platform.fresh ec_all_zero)
        hwmon_sensor_types.hwmon_pwm hwmon_pwm_input 1 256
      = (- EINVAL, ⟨true⟩, Platform.fresh ec_all_zero) :=
  ⟨Or.inl ⟨rfl, Or.inr (by decide)⟩,
    ibg10_write_rejects_invalid ec_register_map ⟨0, 0, 0⟩ ⟨true⟩ (Platform.fresh ec_all_zero)
      hwmon_pwm_input 1 256 (Or.inl ⟨rfl, Or.inr (by decide)⟩)⟩

/-- C7. For a 16-bit address `a` and an 8-bit value `v`, every request buffer
`uw_ec_write` hands to the transport (between one and three of them, retries
included) is the 40-byte buffer with byte 0 = `a mod 256`, byte 1 = `a div 256`,
byte 2 = `v` and zero elsewhere (byte 5 = 0); `uw_ec_read` hands over exactly
one 40-byte buffer with the same bytes 0-1, byte 5 = 1 and zero elsewhere; and
byte 0 + 256 * byte 1 gives `a` back. -/
theorem request_buffer_layout {σ : Type} (T : WmiMethod σ) (p : Platform σ) (a v x : Nat)
    (ha : a < 65536) (hv : v < 256) :
    (∃ n, 1 ≤ n ∧ n ≤ 3 ∧
      (uw_ec_write T p a v).2.wmi_calls = p.wmi_calls ++
        List.replicate n ([a % 256, a / 256, v, 0, 0, 0] ++ List.replicate 34 0)) ∧
    (uw_ec_read T p a x).2.2.wmi_calls = p.wmi_calls ++
        [[a % 256, a / 256, 0, 0, 0, 1] ++ List.replicate 34 0] ∧
    ([a % 256, a / 256, v, 0, 0, 0] ++ List.replicate 34 0).length = 40 ∧
    ([a % 256, a / 256, 0, 0, 0, 1] ++ List.replicate 34 0).length = 40 ∧
    a % 256 + 256 * (a / 256) = a := by
  have hwa : uw_ec_write_arg a v = [a % 256, a / 256, v, 0, 0, 0] ++ List.replicate 34 0 := by
    rw [uw_ec_write_arg_eq, and_ff_eq_mod, shr8_and_ff_eq a ha]
  have hra : uw_ec_read_arg a = [a % 256, a / 256, 0, 0, 0, 1] ++ List.replicate 34 0 := by
    rw [uw_ec_read_arg_eq, and_ff_eq_mod, shr8_and_ff_eq a ha]
  refine ⟨?_, ?_, by simp, by simp, by omega⟩
  · obtain ⟨m, h1, h2, h⟩ := uw_ec_write_retry_calls T a v 3
      { p with ec_ops := p.ec_ops ++ [EcOp.write a v] }
    refine ⟨m, h1, by simpa using h2, ?_⟩
    rw [← hwa]
    simpa [uw_ec_write, Nat.mod_eq_of_lt ha, Nat.mod_eq_of_lt hv] using h
  · rw [uw_ec_read_calls, Nat.mod_eq_of_lt ha, hra]

/-- Witness for C7: address 0x0f20, value 100, against the stub that fails
twice, so that retries occur. -/
theorem request_buffer_layout_witness :
    0x0f20 < 65536 ∧ 100 < 256 ∧
    (uw_ec_write wmi_fails_first (Platform.fresh 2) 0x0f20 100).2.wmi_calls =
      List.replicate 3 ([0x20, 0x0f, 100, 0, 0, 0] ++ List.replicate 34 0) ∧
    (uw_ec_read wmi_fails_first (Platform.fresh 2) 0x0f20 0).2.2.wmi_calls =
      [[0x20, 0x0f, 0, 0, 0, 1] ++ List.replicate 34 0] ∧
    0x0f20 % 256 + 256 * (0x0f20 / 256) = 0x0f20 :=
  ⟨by decide, by decide, by decide,
    (request_buffer_layout wmi_fails_first (Platform.fresh 2) 0x0f20 100 0
      (by decide) (by decide)).2.1,
    (request_buffer_layout wmi_fails_first (Platform.fresh 2) 0x0f20 100 0
      (by decide) (by decide)).2.2.2.2⟩

/-- C10. In the CustomTable state and with a transport that never fails, a PWM
duty write in [0,255] returns 0, keeps the driver state, and issues exactly six
register writes, one transport call each: the clamped raw value to the
channel's table-speed register, then five times the same value to the channel's
direct-speed register. -/
theorem set_speed_custom_table_writes {σ : Type} (T : WmiMethod σ)
    (hT : ∀ s buf, (T.evaluate s buf).1.failure = false) (u : Indeterminate)
    (data : ibg10_data) (hd : data.fans_initialized = true) (p : Platform σ)
    (channel duty : Int) (h0 : 0 ≤ duty) (h1 : duty ≤ 255) :
    (ibg10_write T u data p hwmon_sensor_types.hwmon_pwm hwmon_pwm_input channel duty).1 = 0 ∧
    (ibg10_write T u data p hwmon_sensor_types.hwmon_pwm hwmon_pwm_input channel duty).2.1
      = data ∧
    (ibg10_write T u data p hwmon_sensor_types.hwmon_pwm hwmon_pwm_input channel duty).2.2.ec_ops
      = p.ec_ops ++
        EcOp.write (if channel = 0 then 0x0f20 else 0x0f50) (spec_raw duty.toNat) ::
          List.replicate 5
            (EcOp.write (if channel = 0 then 0x1804 else 0x1809) (spec_raw duty.toNat)) ∧
    (ibg10_write T u data p hwmon_sensor_types.hwmon_pwm hwmon_pwm_input channel
        duty).2.2.wmi_calls
      = p.wmi_calls ++
        uw_ec_write_arg (if channel = 0 then 0x0f20 else 0x0f50) (spec_raw duty.toNat) ::
          List.replicate 5
            (uw_ec_write_arg (if channel = 0 then 0x1804 else 0x1809) (spec_raw duty.toNat)) := by
  have ht : table_speed_reg channel = if channel = 0 then 0x0f20 else 0x0f50 := rfl
  have hdr : direct_speed_reg channel = if channel = 0 then 0x1804 else 0x1809 := rfl
  rw [ibg10_write_pwm_input T u data p channel duty h0 h1]
  refine ⟨rfl, ?_, ?_, ?_⟩
  · rw [fan_set_speed_eq, hd]; rfl
  · rw [fan_set_speed_ops, hd, duty_speed_mod duty h0 h1, ht, hdr]; rfl
  · rw [fan_set_speed_eq, hd]
    simp only [if_true]
    rw [foldl_write_never_fails T hT, uw_ec_write_never_fails T hT]
    simp only [spec_clamp_mod, table_speed_reg_mod, direct_speed_reg_mod]
    simp only [duty_speed_mod duty h0 h1, ht, hdr]
    simp

/-- Witness for C10: duty 128 on the primary channel of a register-backed EC. -/
theorem set_speed_custom_table_writes_witness :
    (∀ (s : Nat → Nat) (buf : List Nat), (ec_register_map.evaluate s buf).1.failure = false) ∧
    (⟨true⟩ : ibg10_data).fans_initialized = true ∧ (0 : Int) ≤ 128 ∧ (128 : Int) ≤ 255 ∧
    (ibg10_write ec_register_map ⟨0, 0, 0⟩ ⟨true⟩ (Platform.fresh ec_all_zero)
        hwmon_sensor_types.hwmon_pwm hwmon_pwm_input 0 128).1 = 0 ∧
    (ibg10_write ec_register_map ⟨0, 0, 0⟩ ⟨true⟩ (Platform.fresh ec_all_zero)
        hwmon_sensor_types.hwmon_pwm hwmon_pwm_input 0 128).2.2.ec_ops
      = [EcOp.write 0x0f20 100, EcOp.write 0x1804 100, EcOp.write 0x1804 100,
         EcOp.write 0x1804 100, EcOp.write 0x1804 100, EcOp.write 0x1804 100] := by
  have hT : ∀ (s : Nat → Nat) (buf : List Nat),
      (ec_register_map.evaluate s buf).1.failure = false := by
    intro s buf; simp only [ec_register_map]; split <;> rfl
  have h := set_speed_custom_table_writes ec_register_map hT
    ⟨0, 0, 0⟩ ⟨true⟩ rfl (Platform.fresh ec_all_zero) 0 128 (by decide) (by decide)
  exact ⟨hT, rfl, by decide, by decide, h.1, h.2.2.1⟩

/-- Counterexample to C1 as stated: duty 1 is in 1..31, yet the value stored in
the table-speed and direct-speed registers is 1, not 25. -/
theorem duty_one_stores_one :
    (ibg10_write ec_register_map ⟨0, 0, 0⟩ ⟨true⟩ (Platform.fresh ec_all_zero)
        hwmon_sensor_types.hwmon_pwm hwmon_pwm_input 0 1).2.2.ec 0x0f20 = 1 ∧
    (ibg10_write ec_register_map ⟨0, 0, 0⟩ ⟨true⟩ (Platform.fresh ec_all_zero)
        hwmon_sensor_types.hwmon_pwm hwmon_pwm_input 0 1).2.2.ec 0x1804 = 1 ∧
    (ibg10_write ec_register_map ⟨0, 0, 0⟩ ⟨true⟩ (Platform.fresh ec_all_zero)
        hwmon_sensor_types.hwmon_pwm hwmon_pwm_input 0 1).2.2.ec 0x0f20 ≠ 25 := by
  decide

/-- C1 (amended). On a register-backed EC, after a PWM duty write both the
table-speed and the direct-speed register of the channel hold: 1 for duty 0 and
for duty 1 (1*200/255 truncates to 0), 25 for every duty in 2..31, 200 for duty
255 and 100 for duty 128. -/
theorem duty_write_stored_raw (u : Indeterminate) (data : ibg10_data)
    (p : Platform (Nat → Nat)) (channel duty : Int) (v : Nat)
    (h : (duty = 0 ∧ v = 1) ∨ (duty = 1 ∧ v = 1) ∨ (2 ≤ duty ∧ duty ≤ 31 ∧ v = 25) ∨
      (duty = 255 ∧ v = 200) ∨ (duty = 128 ∧ v = 100)) :
    (ibg10_write ec_register_map u data p hwmon_sensor_types.hwmon_pwm hwmon_pwm_input
        channel duty).2.2.ec (if channel = 0 then 0x0f20 else 0x0f50) = v ∧
    (ibg10_write ec_register_map u data p hwmon_sensor_types.hwmon_pwm hwmon_pwm_input
        channel duty).2.2.ec (if channel = 0 then 0x1804 else 0x1809) = v := by
  have h0 : 0 ≤ duty := by omega
  have h1 : duty ≤ 255 := by omega
  have hs := ibg10_write_regmap_stored u data p channel duty h0 h1
  have hv : spec_raw duty.toNat = v := by
    obtain ⟨n, rfl⟩ := Int.eq_ofNat_of_zero_le h0
    rw [Int.toNat_ofNat]
    have hn : n ≤ 255 := by omega
    unfold spec_raw spec_clamp
    simp only
    rcases h with ⟨a, b⟩ | ⟨a, b⟩ | ⟨a, b, c⟩ | ⟨a, b⟩ | ⟨a, b⟩ <;> split_ifs <;> omega
  rw [hv] at hs
  exact hs

/-- Witness for C1 (amended): duty 31 on the secondary channel, starting in the
Automatic state. -/
theorem duty_write_stored_raw_witness :
    (((31 : Int) = 0 ∧ 25 = 1) ∨ ((31 : Int) = 1 ∧ 25 = 1) ∨
      ((2 : Int) ≤ 31 ∧ (31 : Int) ≤ 31 ∧ 25 = 25) ∨
      ((31 : Int) = 255 ∧ 25 = 200) ∨ ((31 : Int) = 128 ∧ 25 = 100)) ∧
    (ibg10_write ec_register_map ⟨0, 0, 0⟩ ⟨false⟩ (Platform.fresh ec_all_zero)
        hwmon_sensor_types.hwmon_pwm hwmon_pwm_input 1 31).2.2.ec 0x0f50 = 25 ∧
    (ibg10_write ec_register_map ⟨0, 0, 0⟩ ⟨false⟩ (Platform.fresh ec_all_zero)
        hwmon_sensor_types.hwmon_pwm hwmon_pwm_input 1 31).2.2.ec 0x1809 = 25 :=
  ⟨by decide,
    duty_write_stored_raw ⟨0, 0, 0⟩ ⟨false⟩ (Platform.fresh ec_all_zero) 1 31 25 (by decide)⟩

/-- Counterexample to C3 as stated: with a transport whose every call fails,
the table-speed write returns `-EIO`, yet the duty write returns 0 and all five
direct-speed writes are still issued (18 transport calls in all). -/
theorem set_speed_swallows_write_failure :
    (uw_ec_write wmi_always_fails (Platform.fresh ()) 0x0f20 100).1 = - EIO ∧
    (ibg10_write wmi_always_fails ⟨0, 0, 0⟩ ⟨true⟩ (Platform.fresh ())
        hwmon_sensor_types.hwmon_pwm hwmon_pwm_input 0 128).1 = 0 ∧
    (ibg10_write wmi_always_fails ⟨0, 0, 0⟩ ⟨true⟩ (Platform.fresh ())
        hwmon_sensor_types.hwmon_pwm hwmon_pwm_input 0 128).2.2.ec_ops
      = [EcOp.write 0x0f20 100, EcOp.write 0x1804 100, EcOp.write 0x1804 100,
         EcOp.write 0x1804 100, EcOp.write 0x1804 100, EcOp.write 0x1804 100] ∧
    (ibg10_write wmi_always_fails ⟨0, 0, 0⟩ ⟨true⟩ (Platform.fresh ())
        hwmon_sensor_types.hwmon_pwm hwmon_pwm_input 0 128).2.2.wmi_calls.length = 18 := by
  decide

/-- C3 (amended). `fan_set_speed` discards the result of every `uw_ec_write`:
for every transport behaviour, channel and speed it returns 0, and after the
state it starts from (the incoming one in CustomTable, the one left by the lazy
initialisation in Automatic) it always invokes the table-speed write followed by
all five direct-speed writes; a duty write in [0,255] through `ibg10_write`
returns that same 0. -/
theorem set_speed_ignores_write_failures {σ : Type} (T : WmiMethod σ) (u : Indeterminate)
    (data : ibg10_data) (p : Platform σ) (channel : Int) (speed : Nat) :
    (fan_set_speed T u data p channel speed).1 = 0 ∧
    (fan_set_speed T u data p channel speed).2.2.ec_ops =
      (if data.fans_initialized then p.ec_ops
        else (init_custom_fan_table T u data p).2.2.ec_ops) ++
      EcOp.write (table_speed_reg channel) (spec_clamp (speed % 256)) ::
        List.replicate 5 (EcOp.write (direct_speed_reg channel) (spec_clamp (speed % 256))) ∧
    (∀ duty : Int, 0 ≤ duty → duty ≤ 255 →
      (ibg10_write T u data p hwmon_sensor_types.hwmon_pwm hwmon_pwm_input channel duty).1
        = 0) :=
  ⟨rfl, fan_set_speed_ops T u data p channel speed,
    fun duty h0 h1 => by rw [ibg10_write_pwm_input T u data p channel duty h0 h1]; rfl⟩

/-- Witness for C3 (amended): duty 128 against the transport that always fails. -/
theorem set_speed_ignores_write_failures_witness :
    (0 : Int) ≤ 128 ∧ (128 : Int) ≤ 255 ∧
    (ibg10_write wmi_always_fails ⟨0, 0, 0⟩ ⟨true⟩ (Platform.fresh ())
      hwmon_sensor_types.hwmon_pwm hwmon_pwm_input 0 128).1 = 0 :=
  ⟨by decide, by decide,
    (set_speed_ignores_write_failures wmi_always_fails ⟨0, 0, 0⟩ ⟨true⟩ (Platform.fresh ())
      0 100).2.2 128 (by decide) (by decide)⟩

/-- Counterexample to C4 as stated: on a register-backed EC with every register
zero and `fans_initialized = false`, `fan_set_auto` and the shutdown path still
issue a register write (0 to the manual-mode register). -/
theorem restore_in_automatic_still_writes :
    register_writes
      (fan_set_auto ec_register_map ⟨0, 0, 0⟩ ⟨false⟩ (Platform.fresh ec_all_zero)).2.2.ec_ops
      = [EcOp.write 0x0741 0] ∧
    register_writes
      (ibg10_fan_exit ec_register_map ⟨0, 0, 0⟩ (some ⟨false⟩)
        (Platform.fresh ec_all_zero)).2.ec_ops
      = [EcOp.write 0x0741 0] := by
  decide

/-- C4 (amended). `fan_set_auto` does not consult `fans_initialized`: in every
state and for every transport behaviour it issues the write of 0 to the
manual-mode register 0x0741, and so does `ibg10_fan_exit` whenever `gdata` is
set; on a register-backed EC whose table-1, table-0, full-fan and custom-profile
bits are already clear that write is the only one it issues. -/
theorem restore_automatic_writes {σ : Type} (T : WmiMethod σ) (u : Indeterminate)
    (data : ibg10_data) (p : Platform σ) :
    EcOp.write 0x0741 0 ∈
      register_writes ((fan_set_auto T u data p).2.2.ec_ops.drop p.ec_ops.length) ∧
    EcOp.write 0x0741 0 ∈
      register_writes ((ibg10_fan_exit T u (some data) p).2.ec_ops.drop p.ec_ops.length) ∧
    (∀ q : Platform (Nat → Nat),
      (q.ec 0x07c6 >>> 2) &&& 1 = 0 → (q.ec 0x07c5 >>> 7) &&& 1 = 0 →
      q.ec 0x0751 &&& 0x40 = 0 → q.ec 0x0727 &&& 0x40 = 0 →
      register_writes ((fan_set_auto ec_register_map u data q).2.2.ec_ops.drop q.ec_ops.length)
        = [EcOp.write 0x0741 0]) := by
  refine ⟨fan_set_auto_ops_manual T u data p, fan_set_auto_ops_manual T u data p, ?_⟩
  intro q h6 h5 hm hp
  rw [fan_set_auto_regmap_idle u data q h6 h5 hm hp, List.drop_left]
  rfl

/-- Witness for C4 (amended): the all-zero register map, in the Automatic state. -/
theorem restore_automatic_writes_witness :
    (((Platform.fresh ec_all_zero).ec 0x07c6 >>> 2) &&& 1 = 0) ∧
    (((Platform.fresh ec_all_zero).ec 0x07c5 >>> 7) &&& 1 = 0) ∧
    ((Platform.fresh ec_all_zero).ec 0x0751 &&& 0x40 = 0) ∧
    ((Platform.fresh ec_all_zero).ec 0x0727 &&& 0x40 = 0) ∧
    register_writes
      ((fan_set_auto ec_register_map ⟨0, 0, 0⟩ ⟨false⟩
        (Platform.fresh ec_all_zero)).2.2.ec_ops.drop
          (Platform.fresh ec_all_zero).ec_ops.length)
      = [EcOp.write 0x0741 0] :=
  ⟨by decide, by decide, by decide, by decide,
    (restore_automatic_writes ec_register_map ⟨0, 0, 0⟩ ⟨false⟩
      (Platform.fresh ec_all_zero)).2.2 (Platform.fresh ec_all_zero)
      (by decide) (by decide) (by decide) (by decide)⟩

/-- C8. On a register-backed EC with a transport that never fails, starting
with `fans_initialized = false` and the custom-profile bit, the manual-mode
register, the table-0 enable bit and the table-1 enable bit all clear: after
every finite sequence of `init_custom_fan_table`, `fan_set_auto` and
`fan_set_speed` calls, `fans_initialized` is true if and only if 0x0727 bit 6 is
set, 0x0741 = 1, 0x07c5 bit 7 is set and 0x07c6 bit 2 is set. -/
theorem fans_initialized_iff_custom_table (u : Indeterminate) (regs : Nat → Nat)
    (calls : List FanCall)
    (h0 : regs 0x0727 &&& 0x40 = 0 ∧ regs 0x0741 = 0 ∧
      (regs 0x07c5 >>> 7) &&& 1 = 0 ∧ (regs 0x07c6 >>> 2) &&& 1 = 0) :
    (run_calls ec_register_map u (⟨false⟩, Platform.fresh regs) calls).1.fans_initialized = true ↔
      ((run_calls ec_register_map u (⟨false⟩, Platform.fresh regs) calls).2.ec 0x0727
          &&& 0x40 ≠ 0 ∧
        (run_calls ec_register_map u (⟨false⟩, Platform.fresh regs) calls).2.ec 0x0741 = 1 ∧
        ((run_calls ec_register_map u (⟨false⟩, Platform.fresh regs) calls).2.ec 0x07c5 >>> 7)
          &&& 1 = 1 ∧
        ((run_calls ec_register_map u (⟨false⟩, Platform.fresh regs) calls).2.ec 0x07c6 >>> 2)
          &&& 1 = 1) := by
  apply run_calls_preserves_flag_config u calls (⟨false⟩, Platform.fresh regs)
  constructor
  · intro hf; exact absurd hf Bool.false_ne_true
  · intro hc
    have h := hc.2.1
    change regs 0x0741 = 1 at h
    have h41 := h0.2.1
    omega

/-- Witness for C8: a sequence that enters, sets a speed, restores and sets a
speed again, from the all-zero register map. -/
theorem fans_initialized_iff_custom_table_witness :
    (ec_all_zero 0x0727 &&& 0x40 = 0 ∧ ec_all_zero 0x0741 = 0 ∧
      (ec_all_zero 0x07c5 >>> 7) &&& 1 = 0 ∧ (ec_all_zero 0x07c6 >>> 2) &&& 1 = 0) ∧
    ((run_calls ec_register_map ⟨0, 0, 0⟩ (⟨false⟩, Platform.fresh ec_all_zero)
        [FanCall.enterCustomTable, FanCall.setSpeed 0 100, FanCall.restoreAutomatic,
         FanCall.setSpeed 1 0]).1.fans_initialized = true ↔
      ((run_calls ec_register_map ⟨0, 0, 0⟩ (⟨false⟩, Platform.fresh ec_all_zero)
        [FanCall.enterCustomTable, FanCall.setSpeed 0 100, FanCall.restoreAutomatic,
         FanCall.setSpeed 1 0]).2.ec 0x0727 &&& 0x40 ≠ 0 ∧
       (run_calls ec_register_map ⟨0, 0, 0⟩ (⟨false⟩, Platform.fresh ec_all_zero)
        [FanCall.enterCustomTable, FanCall.setSpeed 0 100, FanCall.restoreAutomatic,
         FanCall.setSpeed 1 0]).2.ec 0x0741 = 1 ∧
       ((run_calls ec_register_map ⟨0, 0, 0⟩ (⟨false⟩, Platform.fresh ec_all_zero)
        [FanCall.enterCustomTable, FanCall.setSpeed 0 100, FanCall.restoreAutomatic,
         FanCall.setSpeed 1 0]).2.ec 0x07c5 >>> 7) &&& 1 = 1 ∧
       ((run_calls ec_register_map ⟨0, 0, 0⟩ (⟨false⟩, Platform.fresh ec_all_zero)
        [FanCall.enterCustomTable, FanCall.setSpeed 0 100, FanCall.restoreAutomatic,
         FanCall.setSpeed 1 0]).2.ec 0x07c6 >>> 2) &&& 1 = 1)) :=
  ⟨by decide,
    fans_initialized_iff_custom_table ⟨0, 0, 0⟩ ec_all_zero
      [FanCall.enterCustomTable, FanCall.setSpeed 0 100, FanCall.restoreAutomatic,
       FanCall.setSpeed 1 0] (by decide)⟩

/-- C9. `init_custom_fan_table` called in the Automatic state on a
register-backed EC (transport never failing) returns 0, sets
`fans_initialized`, and leaves the fixed curve in the zone registers: primary
zone 0 is (start 0, end 115, speed 0) at 0x0f10/0x0f00/0x0f20, secondary zone 0
is (start 0, end 120, speed 0) at 0x0f40/0x0f30/0x0f50, and for every `i` in
1..15 both channels hold (start 115+i, end 116+i, speed 200) at the base
registers plus `i`; the computed temperatures fit in 8 bits, the bands run from
116 to 131, and each band ends where the next one starts. -/
theorem init_programs_fixed_curve (u : Indeterminate) (p : Platform (Nat → Nat)) :
    (init_custom_fan_table ec_register_map u ⟨false⟩ p).1 = 0 ∧
    (init_custom_fan_table ec_register_map u ⟨false⟩ p).2.1.fans_initialized = true ∧
    ((init_custom_fan_table ec_register_map u ⟨false⟩ p).2.2.ec 0x0f10 = 0 ∧
      (init_custom_fan_table ec_register_map u ⟨false⟩ p).2.2.ec 0x0f00 = 115 ∧
      (init_custom_fan_table ec_register_map u ⟨false⟩ p).2.2.ec 0x0f20 = 0) ∧
    ((init_custom_fan_table ec_register_map u ⟨false⟩ p).2.2.ec 0x0f40 = 0 ∧
      (init_custom_fan_table ec_register_map u ⟨false⟩ p).2.2.ec 0x0f30 = 120 ∧
      (init_custom_fan_table ec_register_map u ⟨false⟩ p).2.2.ec 0x0f50 = 0) ∧
    (∀ i, 1 ≤ i → i ≤ 15 →
      ((init_custom_fan_table ec_register_map u ⟨false⟩ p).2.2.ec (0x0f10 + i) = 115 + i ∧
        (init_custom_fan_table ec_register_map u ⟨false⟩ p).2.2.ec (0x0f00 + i) = 116 + i ∧
        (init_custom_fan_table ec_register_map u ⟨false⟩ p).2.2.ec (0x0f20 + i) = 200) ∧
      ((init_custom_fan_table ec_register_map u ⟨false⟩ p).2.2.ec (0x0f40 + i) = 115 + i ∧
        (init_custom_fan_table ec_register_map u ⟨false⟩ p).2.2.ec (0x0f30 + i) = 116 + i ∧
        (init_custom_fan_table ec_register_map u ⟨false⟩ p).2.2.ec (0x0f50 + i) = 200) ∧
      116 + i ≤ 131 ∧ 131 < 256 ∧
      (i < 15 →
        (init_custom_fan_table ec_register_map u ⟨false⟩ p).2.2.ec (0x0f00 + i)
          = (init_custom_fan_table ec_register_map u ⟨false⟩ p).2.2.ec (0x0f10 + (i + 1)) ∧
        (init_custom_fan_table ec_register_map u ⟨false⟩ p).2.2.ec (0x0f30 + i)
          = (init_custom_fan_table ec_register_map u ⟨false⟩ p).2.2.ec (0x0f40 + (i + 1)))) := by
  rw [init_regmap_ec]
  obtain ⟨a, b, c, d, e, f⟩ := init_regs_zone0 p.ec
  refine ⟨rfl, rfl, ⟨a, b, c⟩, ⟨d, e, f⟩, ?_⟩
  intro i h1 h2
  obtain ⟨a, b, c, d, e, f⟩ := init_regs_zone p.ec i h1 h2
  refine ⟨⟨a, b, c⟩, ⟨d, e, f⟩, by omega, by decide, ?_⟩
  intro h3
  obtain ⟨a', _, _, d', _, _⟩ := init_regs_zone p.ec (i + 1) (by omega) (by omega)
  rw [b, e, a', d']
  constructor <;> omega

/-- Witness for C9: the last zone (i = 15) from the all-zero register map. -/
theorem init_programs_fixed_curve_witness :
    1 ≤ 15 ∧ 15 ≤ 15 ∧
    ((init_custom_fan_table ec_register_map ⟨0, 0, 0⟩ ⟨false⟩
        (Platform.fresh ec_all_zero)).2.2.ec (0x0f10 + 15) = 115 + 15 ∧
      (init_custom_fan_table ec_register_map ⟨0, 0, 0⟩ ⟨false⟩
        (Platform.fresh ec_all_zero)).2.2.ec (0x0f00 + 15) = 116 + 15 ∧
      (init_custom_fan_table ec_register_map ⟨0, 0, 0⟩ ⟨false⟩
        (Platform.fresh ec_all_zero)).2.2.ec (0x0f20 + 15) = 200) :=
  ⟨by decide, by decide,
    ((init_programs_fixed_curve ⟨0, 0, 0⟩ (Platform.fresh ec_all_zero)).2.2.2.2 15
      (by decide) (by decide)).1⟩

/-- Counterexample to C2 as stated: a duty write of 128 issued in the Automatic
state writes 0 and then 100 to the primary table-speed register 0x0f20 (the 0 is
the zone-0 speed programmed by the lazy initialisation), and 0 is not in
`{1} ∪ [25,200]`. -/
theorem lazy_init_writes_zero_speed :
    values_written
      (ibg10_write ec_register_map ⟨0, 0, 0⟩ ⟨false⟩ (Platform.fresh ec_all_zero)
        hwmon_sensor_types.hwmon_pwm hwmon_pwm_input 0 128).2.2.ec_ops 0x0f20 = [0, 100] ∧
    ¬ speed_in_range 0 := by
  refine ⟨?_, by decide⟩
  rw [ibg10_write_pwm_input ec_register_map _ _ _ 0 128 (by decide) (by decide)]
  exact (fan_set_speed_values_written ec_register_map ⟨0, 0, 0⟩ ⟨false⟩
    (Platform.fresh ec_all_zero) 0 ((128 : Int).toNat * 200 / 255)).2

/-- C2 (amended). For every transport behaviour, channel and 8-bit speed,
`fan_set_speed` appends to the values written to the channel's direct-speed
register exactly five copies of the clamped value, and to the values written to
the channel's table-speed register exactly the clamped value, preceded by the
zone-0 speed 0 of the lazy initialisation when the state was Automatic; the
clamped value lies in `{1} ∪ [25,200]`.  A duty write in [0,255] through
`ibg10_write` does the same with the clamped `duty * 200 / 255`. -/
theorem set_speed_written_values {σ : Type} (T : WmiMethod σ) (u : Indeterminate)
    (data : ibg10_data) (p : Platform σ) (channel : Int) (speed : Nat) :
    speed_in_range (spec_clamp (speed % 256)) ∧
    values_written (fan_set_speed T u data p channel speed).2.2.ec_ops
        (direct_speed_reg channel)
      = values_written p.ec_ops (direct_speed_reg channel)
        ++ List.replicate 5 (spec_clamp (speed % 256)) ∧
    values_written (fan_set_speed T u data p channel speed).2.2.ec_ops
        (table_speed_reg channel)
      = values_written p.ec_ops (table_speed_reg channel)
        ++ (if data.fans_initialized then [] else [0]) ++ [spec_clamp (speed % 256)] ∧
    (∀ duty : Int, 0 ≤ duty → duty ≤ 255 →
      speed_in_range (spec_raw duty.toNat) ∧
      values_written (ibg10_write T u data p hwmon_sensor_types.hwmon_pwm hwmon_pwm_input
          channel duty).2.2.ec_ops (direct_speed_reg channel)
        = values_written p.ec_ops (direct_speed_reg channel)
          ++ List.replicate 5 (spec_raw duty.toNat) ∧
      values_written (ibg10_write T u data p hwmon_sensor_types.hwmon_pwm hwmon_pwm_input
          channel duty).2.2.ec_ops (table_speed_reg channel)
        = values_written p.ec_ops (table_speed_reg channel)
          ++ (if data.fans_initialized then [] else [0]) ++ [spec_raw duty.toNat]) := by
  refine ⟨spec_clamp_in_range _, (fan_set_speed_values_written T u data p channel speed).1,
    (fan_set_speed_values_written T u data p channel speed).2, ?_⟩
  intro duty h0 h1
  rw [ibg10_write_pwm_input T u data p channel duty h0 h1, ← duty_speed_mod duty h0 h1]
  exact ⟨spec_clamp_in_range _, fan_set_speed_values_written T u data p channel _⟩

/-- Witness for C2 (amended): duty 10 on the secondary channel against the
transport that always fails, in the Automatic state. -/
theorem set_speed_written_values_witness :
    (0 : Int) ≤ 10 ∧ (10 : Int) ≤ 255 ∧
    values_written (ibg10_write wmi_always_fails ⟨0, 0, 0⟩ ⟨false⟩ (Platform.fresh ())
        hwmon_sensor_types.hwmon_pwm hwmon_pwm_input 1 10).2.2.ec_ops (direct_speed_reg 1)
      = values_written (Platform.fresh ()).ec_ops (direct_speed_reg 1)
        ++ List.replicate 5 (spec_raw (10 : Int).toNat) :=
  ⟨by decide, by decide,
    ((set_speed_written_values wmi_always_fails ⟨0, 0, 0⟩ ⟨false⟩ (Platform.fresh ()) 1 0).2.2.2
      10 (by decide) (by decide)).2.1⟩

end Ibg10
